import Mathlib

/-!
Verification of the werewolf-game belief tracker implemented in
`examples/game/werewolves/agent.py` (class `PlayerAgent`).

The Python agent keeps a mutable belief state (role, teammates, known roles,
suspicion scores, dead/alive lists, voting history, ...) and updates it from
observed free-text game messages (`_extract_game_info`), a vote-driven
suspicion engine (`_update_suspicion_from_vote`, `_detect_vote_coordination`),
and a seer-claim credibility evaluator (`_evaluate_seer_credibility`).

This file shallowly embeds that code: Python dicts become insertion-ordered
association lists (matching Python 3.7+ dict semantics), floats become `ℚ`,
strings become Lean `String`/`List Char`, and the specific regular expressions
used by the code are hand-compiled into character-list matchers.
-/

set_option maxRecDepth 100000
set_option maxHeartbeats 4000000

namespace Werewolf

/-! ## Character/string utilities -/

/-- Apostrophe character, used to build pattern strings such as the
`You've checked` guard from the source. -/
def apos : Char := Char.ofNat 39

/-- Does `needle` occur at the start of `hay`? -/
def startsWithChars : List Char → List Char → Bool
  | [], _ => true
  | _ :: _, [] => false
  | a :: as, b :: bs => a == b && startsWithChars as bs

/-- Does `needle` occur as a contiguous run anywhere in `hay`?
Mirrors Python's `needle in hay`. -/
def containsChars (needle : List Char) : List Char → Bool
  | [] => startsWithChars needle []
  | c :: rest => startsWithChars needle (c :: rest) || containsChars needle rest

/-- `hay.lower()` (ASCII case folding, which is all the source's patterns use). -/
def lowerChars (l : List Char) : List Char := l.map Char.toLower

/-- Case-insensitive `startsWithChars`: `needle` is given lowercase. -/
def ciStartsWith (needle hay : List Char) : Bool :=
  startsWithChars needle (lowerChars hay)

/-- Substring test on `String`s (Python `needle in hay`). -/
def strContains (hay needle : String) : Bool := containsChars needle.data hay.data

/-- `\w` of the source's (ASCII) regexes: letters, digits and underscore. -/
def isWordChar (c : Char) : Bool := c.isAlphanum || c == '_'

def playerLit : String := "Player"

/-- One step of scanning for `Player\d+`: if the input starts with
`Player` followed by at least one digit, return the maximal match and the
rest of the input. -/
def playerHere (l : List Char) : Option (String × List Char) :=
  if startsWithChars playerLit.data l then
    let after := l.drop 6
    let ds := after.takeWhile Char.isDigit
    if ds.isEmpty then none
    else some (⟨playerLit.data ++ ds⟩, after.drop ds.length)
  else none

/-- Fuel-indexed worker for `findPlayers`; the fuel starts at the input
length and each step consumes at least one character. -/
def findPlayersAux : Nat → List Char → List String
  | 0, _ => []
  | _ + 1, [] => []
  | fuel + 1, c :: rest =>
    match playerHere (c :: rest) with
    | some (p, after) => p :: findPlayersAux fuel after
    | none => findPlayersAux fuel rest

/-- `re.findall(r"Player\d+", content)`: all non-overlapping maximal
occurrences of `Player` followed by digits, in order. -/
def findPlayers (l : List Char) : List String := findPlayersAux l.length l

/-! ## Insertion-ordered association lists (Python dicts) -/

/-- First value bound to `k`, if any. -/
def alGet : List (String × α) → String → Option α
  | [], _ => none
  | (k', v') :: rest, k => if k' = k then some v' else alGet rest k

/-- `m.get(k, d)` of Python. -/
def alGetD (m : List (String × α)) (k : String) (d : α) : α :=
  (alGet m k).getD d

/-- `m[k] = v` of Python: overwrite in place if the key exists (keeping its
position), otherwise append at the end. -/
def alSet (k : String) (v : α) : List (String × α) → List (String × α)
  | [] => [(k, v)]
  | (k', v') :: rest =>
    if k' = k then (k, v) :: rest else (k', v') :: alSet k v rest

/-- Key membership, `k in m` of Python. -/
def alHas (m : List (String × α)) (k : String) : Bool :=
  (alGet m k).isSome

@[simp] theorem alGet_alSet_same (m : List (String × α)) (k : String) (v : α) :
    alGet (alSet k v m) k = some v := by
  induction m with
  | nil => simp [alSet, alGet]
  | cons kv rest ih =>
    obtain ⟨k', v'⟩ := kv
    by_cases h : k' = k <;> simp [alSet, alGet, h, ih]

@[simp] theorem alGet_alSet_other (m : List (String × α)) (k p : String) (v : α)
    (h : p ≠ k) : alGet (alSet k v m) p = alGet m p := by
  have hkp : ¬ k = p := fun hh => h hh.symm
  induction m with
  | nil => simp [alSet, alGet, hkp]
  | cons kv rest ih =>
    obtain ⟨k', v'⟩ := kv
    by_cases hk : k' = k
    · subst hk
      simp [alSet, alGet, hkp]
    · by_cases hp : k' = p
      · simp [alSet, alGet, hk, hp, h]
      · simp [alSet, alGet, hk, hp, ih]

theorem alGetD_alSet_same (m : List (String × α)) (k : String) (v d : α) :
    alGetD (alSet k v m) k d = v := by simp [alGetD]

theorem alGetD_alSet_other (m : List (String × α)) (k p : String) (v d : α)
    (h : p ≠ k) : alGetD (alSet k v m) p d = alGetD m p d := by
  simp [alGetD, alGet_alSet_other m k p v h]

/-! ## The belief state (`PlayerAgent.__init__` game-tracking fields) -/

structure AgentState where
  name : String
  role : Option String
  teammates : List String
  knownRoles : List (String × String)
  suspicions : List (String × ℚ)
  deadPlayers : List String
  pendingDeadPlayers : List String
  alivePlayers : List String
  votingHistory : List (String × List String)
  speechPatterns : List (String × List String)
  roundNum : Nat
  phase : String
  claimedRoles : List (String × String)
  myPosition : Nat
  seerClaims : List String
  wolfChecks : List (String × String)
  speechOrder : Nat
  deriving DecidableEq, Repr

/-- `PlayerAgent.__init__(name)`: all tracking fields empty/default. -/
def initState (name : String) : AgentState :=
  { name := name
    role := none
    teammates := []
    knownRoles := []
    suspicions := []
    deadPlayers := []
    pendingDeadPlayers := []
    alivePlayers := []
    votingHistory := []
    speechPatterns := []
    roundNum := 0
    phase := "night"
    claimedRoles := []
    myPosition := 0
    seerClaims := []
    wolfChecks := []
    speechOrder := 0 }

/-- An observed message: `msg.name` and `msg.get_text_content()`. -/
structure GameMsg where
  speaker : String
  content : String
  deriving DecidableEq, Repr

/-! ## Credibility evaluator (`_evaluate_seer_credibility`)

The Python function initializes `score = 0.5` and then applies four
adjustments, none of which reads `score`, so the sequential mutations are
embedded as a sum of four independent adjustment terms. -/

def werewolfStr : String := "werewolf"

/-- Counter-claim ambiguity penalty (`len(self.seer_claims) >= 2`). -/
def ccAdj (s : AgentState) : ℚ :=
  if 2 ≤ s.seerClaims.length then -(1/10) else 0

/-- Wolf-check verification adjustment: `+0.3` when the recorded check
target is dead and confirmed werewolf, `-0.1` when dead but not confirmed;
no adjustment at all when the target is not dead (the `else` branch in the
source is nested inside the `in self.dead_players` test). -/
def wcAdj (s : AgentState) (seer : String) : ℚ :=
  match alGet s.wolfChecks seer with
  | none => 0
  | some t =>
    if t ∈ s.deadPlayers then
      if alGet s.knownRoles t = some werewolfStr then 3/10 else -(1/10)
    else 0

/-- Claim-timing adjustment from the seer's 1-based seat position. -/
def posAdj (s : AgentState) (seer : String) : ℚ :=
  if seer ∈ s.alivePlayers then
    let pos := s.alivePlayers.indexOf seer + 1
    if pos ≤ 3 then 1/10 else if 7 ≤ pos then -(1/20) else 0
  else 0

/-- Cross-accusation penalty: `-0.2` per rival claimant whose recorded
wolf check names this seer. -/
def crossAdj (s : AgentState) (seer : String) : ℚ :=
  s.wolfChecks.foldl
    (fun acc kv => if kv.1 ≠ seer ∧ kv.2 = seer then acc - 1/5 else acc) 0

/-- The pre-clamp score of `_evaluate_seer_credibility`. -/
def seerScore (s : AgentState) (seer : String) : ℚ :=
  1/2 + ccAdj s + wcAdj s seer + posAdj s seer + crossAdj s seer

/-- `_evaluate_seer_credibility(seer)`: `0.0` for non-claimants, otherwise
the adjusted score clamped to `[0, 1]`. -/
def evalSeerCredibility (s : AgentState) (seer : String) : ℚ :=
  if seer ∈ s.seerClaims then max 0 (min 1 (seerScore s seer)) else 0

/-! ## Suspicion engine -/

/-- `self.suspicions[k] = self.suspicions.get(k, 0) + d`. -/
def bump (k : String) (d : ℚ) (m : List (String × ℚ)) : List (String × ℚ) :=
  alSet k (alGetD m k 0 + d) m

def accusedTag : String := "accused:"

/-- `p.split(":")[1]` applied to the `"accused:X"` tags the extractor
records (`X` never contains a colon). -/
def stripAccused (p : String) : Option String :=
  if startsWithChars accusedTag.data p.data then
    some ⟨p.data.drop accusedTag.data.length⟩
  else none

/-- Rule 1 of `_update_suspicion_from_vote`: speech/vote inconsistency. -/
def rule1sus (s : AgentState) (voter target : String) : List (String × ℚ) :=
  match alGet s.speechPatterns voter with
  | none => s.suspicions
  | some pats =>
    if pats.filterMap stripAccused ≠ [] ∧ target ∉ pats.filterMap stripAccused then
      bump voter (1/4) s.suspicions
    else s.suspicions

def rule1 (s : AgentState) (voter target : String) : AgentState :=
  { s with suspicions := rule1sus s voter target }

/-- Rule 2: voting a confirmed innocent (only when this agent is the seer). -/
def rule2sus (s : AgentState) (voter target : String) : List (String × ℚ) :=
  match alGet s.knownRoles target with
  | none => s.suspicions
  | some r =>
    if r ≠ werewolfStr ∧ s.role = some "seer" then bump voter (7/20) s.suspicions
    else s.suspicions

def rule2 (s : AgentState) (voter target : String) : AgentState :=
  { s with suspicions := rule2sus s voter target }

/-- Rule 3: voting a credible seer claimant. -/
def rule3sus (s : AgentState) (voter target : String) : List (String × ℚ) :=
  if target ∈ s.seerClaims ∧ 3/5 < evalSeerCredibility s target then
    bump voter (3/10) s.suspicions
  else s.suspicions

def rule3 (s : AgentState) (voter target : String) : AgentState :=
  { s with suspicions := rule3sus s voter target }

/-- Each live voter's most recent vote (`current_round_votes`). -/
def currentRoundVotes (s : AgentState) : List (String × String) :=
  s.votingHistory.foldl
    (fun acc kv =>
      match kv.2.getLast? with
      | none => acc
      | some t => if kv.1 ∈ s.deadPlayers then acc else acc ++ [(kv.1, t)])
    []

/-- `voters_for_target` of `_detect_vote_coordination`. -/
def votersFor (s : AgentState) (target : String) : List String :=
  ((currentRoundVotes s).filter (fun kv => kv.2 == target)).map (·.1)

/-- First half of `_detect_vote_coordination`: the coordinated-vote bump
for a shared low-suspicion target. -/
def coordSus1 (s : AgentState) (target : String) (vft : List String) :
    List (String × ℚ) :=
  if 2 ≤ vft.length then
    if alGetD s.suspicions target 0 < 3/10 then
      vft.foldl (fun m v => if v ≠ s.name then bump v (1/10) m else m) s.suspicions
    else s.suspicions
  else s.suspicions

/-- `_detect_vote_coordination(voter, target)`: the coordinated-vote bump
followed by the late-round bandwagon bump, both over the same
`voters_for_target` list. -/
def coordSus (s : AgentState) (voter target : String) : List (String × ℚ) :=
  let vft := votersFor s target
  let sus1 := coordSus1 s target vft
  if 3 < s.speechOrder ∧ 2 ≤ vft.length then
    vft.foldl (fun m v => if v ≠ s.name ∧ v ≠ voter then bump v (1/20) m else m) sus1
  else sus1

def detectVoteCoordination (s : AgentState) (voter target : String) : AgentState :=
  { s with suspicions := coordSus s voter target }

/-- One step of the mutual-avoidance scan over `alive_players`: note the
absence of any `p != self.name` test. -/
def mutualStep (s : AgentState) (voter : String) (voterVotes : List String)
    (m : List (String × ℚ)) (p : String) : List (String × ℚ) :=
  if p ≠ voter ∧ p ∉ voterVotes ∧ voter ∉ alGetD s.votingHistory p [] then
    bump p (3/20) (bump voter (3/20) m)
  else m

/-- Rule 5: mutual vote avoidance (requires ≥ 2 recorded votes). -/
def rule5sus (s : AgentState) (voter : String) : List (String × ℚ) :=
  match alGet s.votingHistory voter with
  | none => s.suspicions
  | some voterVotes =>
    if 2 ≤ voterVotes.length then
      s.alivePlayers.foldl (mutualStep s voter voterVotes) s.suspicions
    else s.suspicions

def rule5 (s : AgentState) (voter : String) : AgentState :=
  { s with suspicions := rule5sus s voter }

/-- `_update_suspicion_from_vote(voter, target)`. -/
def updateSuspicionFromVote (s : AgentState) (voter target : String) : AgentState :=
  rule5 (detectVoteCoordination (rule3 (rule2 (rule1 s voter target) voter target) voter target) voter target) voter

/-! ## Top-suspects synthesis (`_build_context`, suspicion section) -/

/-- Stable descending insertion (Python's stable `sorted` by `-score`):
an element is placed after all entries with score ≥ its own. -/
def insertDesc (x : String × ℚ) : List (String × ℚ) → List (String × ℚ)
  | [] => [x]
  | y :: ys => if x.2 ≤ y.2 then y :: insertDesc x ys else x :: y :: ys

/-- Insertion sort, inserting left to right so that earlier entries stay
ahead of later entries with an equal score. -/
def sortDescBy (l : List (String × ℚ)) : List (String × ℚ) :=
  l.foldl (fun acc x => insertDesc x acc) []

/-- The player names shown as "Top suspects": sorted descending by score,
first three, filtered to scores strictly above `0.2`. -/
def topSuspects (s : AgentState) : List String :=
  (((sortDescBy s.suspicions).take 3).filter (fun x => 1/5 < x.2)).map (·.1)

/-! ## Pattern helpers for the extractor -/

/-- `needle in hay` with a `String` needle. -/
def hasSub (hay : List Char) (needle : String) : Bool :=
  containsChars needle.data hay

/-- Remainder of `hay` after the first case-insensitive occurrence of
`needle` (the needle is given lowercase), if any. -/
def afterFirstCiAux (needle : List Char) : Nat → List Char → Option (List Char)
  | 0, _ => none
  | fuel + 1, hay =>
    if ciStartsWith needle hay then some (hay.drop needle.length)
    else
      match hay with
      | [] => none
      | _ :: rest => afterFirstCiAux needle fuel rest

def afterFirstCi (needle : String) (hay : List Char) : Option (List Char) :=
  afterFirstCiAux (lowerChars needle.data) (hay.length + 1) hay

/-- Earliest occurrence of `Player\d+`, with the remainder after it. -/
def firstPlayerFromAux : Nat → List Char → Option (String × List Char)
  | 0, _ => none
  | _ + 1, [] => none
  | fuel + 1, c :: rest =>
    match playerHere (c :: rest) with
    | some pr => some pr
    | none => firstPlayerFromAux fuel rest

def firstPlayerFrom (l : List Char) : Option (String × List Char) :=
  firstPlayerFromAux l.length l

/-! ## Extractor (`_extract_game_info`), block by block in source order -/

def roleWordsEn : List String := ["werewolf", "villager", "seer", "witch", "hunter"]

def roleWordsCn : List (String × String) :=
  [("狼人", "werewolf"), ("村民", "villager"), ("预言家", "seer"),
   ("女巫", "witch"), ("猎人", "hunter")]

/-- Content part of the self-role disclosure guard. -/
def roleMarker (c : List Char) : Bool :=
  hasSub (lowerChars c) "your role is" || hasSub c "你的身份是" || hasSub c "你的角色是"

/-- Combined result of the two role loops: the english loop takes the
first matching english role word, and the Chinese loop (run second in the
source) overwrites it with the first matching Chinese role. Both loops
write `role` and `known_roles[self]`, so only the final value matters. -/
def roleScan (content : List Char) : Option String :=
  match roleWordsCn.find? (fun pr => hasSub content pr.1) with
  | some pr => some pr.2
  | none => roleWordsEn.find? (fun r => hasSub (lowerChars content) r)

/-- Self-role extraction. -/
def roleBlock (s : AgentState) (m : GameMsg) : AgentState :=
  if roleMarker m.content.data && containsChars s.name.data m.content.data then
    match roleScan m.content.data with
    | some r => { s with role := some r, knownRoles := alSet s.name r s.knownRoles }
    | none => s
  else s

def wolfChannelMarker (c : List Char) : Bool :=
  hasSub c "WEREWOLVES ONLY" || hasSub c "仅狼人可见" || hasSub c "狼人请睁眼"

/-- Werewolf teammate tracking: the loop only writes `teammates` and
`known_roles`, so it is folded over that pair. -/
def teammateBlock (s : AgentState) (m : GameMsg) : AgentState :=
  let content := m.content.data
  if s.role = some werewolfStr ∧ wolfChannelMarker content then
    let pr := (findPlayers content).foldl
      (fun pr p =>
        if p ≠ s.name ∧ p ∉ pr.1 then (pr.1 ++ [p], alSet p werewolfStr pr.2)
        else pr)
      (s.teammates, s.knownRoles)
    { s with teammates := pr.1, knownRoles := pr.2 }
  else s

/-- Guard string `You've checked`, built without a literal apostrophe. -/
def youveChecked : String := "You" ++ String.singleton apos ++ "ve checked"

def seerMarker (c : List Char) : Bool :=
  hasSub c youveChecked || hasSub c "查验" || hasSub c "仅预言家可见"

/-- Hand-compiled `re.search(r"checked (\w+).*result is[:\s]*(\w+)", content, re.I)`:
returns `(group1, group2.lower())` when the pattern matches. -/
def seerResultMatch (content : List Char) : Option (String × String) :=
  match afterFirstCi "checked " content with
  | none => none
  | some rest =>
    let w1 := rest.takeWhile isWordChar
    if w1.isEmpty then none
    else
      match afterFirstCi "result is" (rest.drop w1.length) with
      | none => none
      | some rest2 =>
        let rest3 := rest2.dropWhile (fun c => c == ':' || c.isWhitespace)
        let w2 := rest3.takeWhile isWordChar
        if w2.isEmpty then none else some (⟨w1⟩, ⟨lowerChars w2⟩)

/-- Hand-compiled `re.search(r"查验了?(Player\d+).*结果是[：:]\s*(\w+)", content)`. -/
def cnSeerMatch (content : List Char) : Option (String × String) :=
  match afterFirstCi "查验" content with
  | none => none
  | some rest =>
    let rest1 := if startsWithChars ['了'] rest then rest.drop 1 else rest
    match playerHere rest1 with
    | none => none
    | some (p, after) =>
      match afterFirstCi "结果是" after with
      | none => none
      | some rest2 =>
        match rest2 with
        | [] => none
        | c :: rest3 =>
          if c == '：' || c == ':' then
            let rest4 := rest3.dropWhile Char.isWhitespace
            let w := rest4.takeWhile isWordChar
            if w.isEmpty then none else some (p, ⟨w⟩)
          else none

def cnRoleWords : List String := ["狼人", "好人", "平民", "村民"]

/-- Scan for `(?:是|为)` immediately followed by one of `cnRoleWords`. -/
def cnRoleAfterAux : Nat → List Char → Option String
  | 0, _ => none
  | _ + 1, [] => none
  | fuel + 1, c :: rest =>
    if c == '是' || c == '为' then
      match cnRoleWords.find? (fun w => startsWithChars w.data rest) with
      | some w => some w
      | none => cnRoleAfterAux fuel rest
    else cnRoleAfterAux fuel rest

/-- Hand-compiled `re.search(r"(Player\d+).*(?:是|为)(狼人|好人|平民|村民)", content)`. -/
def cnFallback (content : List Char) : Option (String × String) :=
  match firstPlayerFrom content with
  | none => none
  | some (p, after) =>
    match cnRoleAfterAux after.length after with
    | some w => some (p, w)
    | none => none

/-- The three check-result patterns applied in sequence to `known_roles`;
each match overwrites earlier ones for the same subject. -/
def seerKnown (content : List Char) (kn : List (String × String)) :
    List (String × String) :=
  let k1 :=
    match seerResultMatch content with
    | some (p, r) => alSet p r kn
    | none => kn
  let k2 :=
    match cnSeerMatch content with
    | some (p, roleStr) =>
      alSet p (if hasSub roleStr.data "狼" then werewolfStr else "villager") k1
    | none => k1
  match cnFallback content with
  | some (p, w) => alSet p (if w = "狼人" then werewolfStr else "villager") k2
  | none => k2

/-- Seer check-result tracking (only when this agent's role is seer). -/
def seerResultBlock (s : AgentState) (m : GameMsg) : AgentState :=
  if s.role = some "seer" ∧ seerMarker m.content.data then
    { s with knownRoles := seerKnown m.content.data s.knownRoles }
  else s

def deathMarker (c : List Char) : Bool :=
  hasSub (lowerChars c) "eliminated" || hasSub (lowerChars c) "died" ||
  hasSub c "淘汰" || hasSub c "出局" || hasSub c "死亡"

/-- Death announcements stage identifiers into `pending_dead_players`;
`dead_players` and `alive_players` are untouched here. -/
def deathBlock (s : AgentState) (m : GameMsg) : AgentState :=
  let content := m.content.data
  if deathMarker content then
    { s with pendingDeadPlayers :=
        ((findPlayers content).foldl
          (fun acc p => if p ∈ s.deadPlayers ∨ p ∈ acc then acc else acc ++ [p])
          s.pendingDeadPlayers) }
  else s

def startMarker (c : List Char) : Bool :=
  (hasSub (lowerChars c) "players are" && hasSub (lowerChars c) "new game") ||
  hasSub c "游戏开始" || hasSub c "新的一局" || hasSub c "参与玩家"

/-- First-occurrence dedup; stands in for Python's unspecified set
iteration order in the roster fallback branch. -/
def dedupKeep (l : List String) : List String :=
  l.foldl (fun acc p => if p ∈ acc then acc else acc ++ [p]) []

/-- Game start / roster block: repopulates `alive_players` (and
`my_position` when self is in the roster). No other field is touched. -/
def gameStartBlock (s : AgentState) (m : GameMsg) : AgentState :=
  let content := m.content.data
  if startMarker content then
    let found := findPlayers content
    if found ≠ [] then
      let s1 := { s with alivePlayers := found }
      if s.name ∈ found then { s1 with myPosition := found.indexOf s.name + 1 }
      else s1
    else
      { s with alivePlayers :=
          dedupKeep ((s.knownRoles.map (·.1)) ++ s.teammates ++ [s.name]) }
  else s

def nightMarker (c : List Char) : Bool :=
  hasSub c "Night has fallen" || hasSub c "天黑了" || hasSub c "黑夜" || hasSub c "闭眼"

def dayMarker (c : List Char) : Bool :=
  hasSub (lowerChars c) "day is coming" || hasSub c "天亮了" ||
  hasSub c "白天" || hasSub c "睁眼"

/-- Day-break commit of staged deaths: append each pending player to
`dead_players` (deduplicated), remove its first occurrence from
`alive_players`, and clear the staging buffer. -/
def commitPending (s : AgentState) : AgentState :=
  { s with
    deadPlayers :=
      s.pendingDeadPlayers.foldl (fun d p => if p ∈ d then d else d ++ [p])
        s.deadPlayers
    alivePlayers := s.pendingDeadPlayers.foldl (fun a p => a.erase p) s.alivePlayers
    pendingDeadPlayers := [] }

/-- Phase detection: the night branch takes priority (Python `elif`). -/
def phaseBlock (s : AgentState) (m : GameMsg) : AgentState :=
  let content := m.content.data
  if nightMarker content then
    { s with phase := "night", roundNum := s.roundNum + 1, speechOrder := 0 }
  else if dayMarker content then
    commitPending { s with phase := "day", speechOrder := 0 }
  else s

/-- Python `speaker and speaker.startswith("Player")`. -/
def isPlayerSpeaker (sp : String) : Bool :=
  !sp.isEmpty && startsWithChars playerLit.data sp.data

def speechOrderBlock (s : AgentState) (m : GameMsg) : AgentState :=
  if s.phase = "day" ∧ isPlayerSpeaker m.speaker ∧ m.speaker ≠ s.name then
    { s with speechOrder := s.speechOrder + 1 }
  else s

def voteMarker (c : List Char) : Bool :=
  hasSub (lowerChars c) "vote" || hasSub c "投票" || hasSub c "投给"

def voteKeywords : List String := ["vote", "投票", "投给", "选择"]

/-- If one of the vote keywords matches (case-insensitively) at the head
of `l`, the remainder after the first matching keyword. -/
def voteKeywordHere (l : List Char) : Option (List Char) :=
  (voteKeywords.find? (fun w => ciStartsWith (lowerChars w.data) l)).map
    (fun w => l.drop w.data.length)

/-- Hand-compiled `re.findall(r"(?:vote|投票|投给|选择).*?(Player\d+)", content, re.I)`:
for each non-overlapping match, the earliest keyword occurrence followed
lazily by the nearest `Player\d+`. -/
def voteTargetsAux : Nat → List Char → List String
  | 0, _ => []
  | fuel + 1, l =>
    match voteKeywordHere l with
    | some after =>
      match firstPlayerFrom after with
      | some (p, after2) => p :: voteTargetsAux fuel after2
      | none => []
    | none =>
      match l with
      | [] => []
      | _ :: rest => voteTargetsAux fuel rest

def voteTargets (l : List Char) : List String := voteTargetsAux l.length l

/-- Vote tracking: append the first extracted target to the speaker's
voting history, then run the suspicion engine. -/
def voteBlock (s : AgentState) (m : GameMsg) : AgentState :=
  let content := m.content.data
  if voteMarker content ∧ isPlayerSpeaker m.speaker then
    let voted := voteTargets content
    let voted := if voted.isEmpty then findPlayers content else voted
    match voted with
    | [] => s
    | t :: _ =>
      let s1 := { s with votingHistory :=
          (alSet m.speaker (alGetD s.votingHistory m.speaker [] ++ [t])
            s.votingHistory) }
      updateSuspicionFromVote s1 m.speaker t
  else s

def enClaimRoles : List String := ["seer", "witch", "hunter", "villager"]

def cnClaimRoles : List (String × String) :=
  [("预言家", "seer"), ("女巫", "witch"), ("猎人", "hunter"), ("村民", "villager")]

def iAm (r : String) : String := "i am " ++ r

def iM (r : String) : String := "i" ++ String.singleton apos ++ "m " ++ r

/-- Record a role claim into the `(claimed_roles, seer_claims)` pair. -/
def recordClaim (sp r : String) :
    List (String × String) × List String → List (String × String) × List String
  | (cr, sc) =>
    if r = "seer" ∧ sp ∉ sc then (alSet sp r cr, sc ++ [sp]) else (alSet sp r cr, sc)

def wolfWords : List String := ["wolf", "werewolf", "查杀", "是狼", "狼人"]

def hasAnyWolfWordCi (l : List Char) : Bool :=
  wolfWords.any (fun w => containsChars (lowerChars w.data) (lowerChars l))

/-- Hand-compiled `re.search(r"(Player\d+).*(?:wolf|werewolf|查杀|是狼|狼人)", content, re.I)`:
group 1 is the earliest player identifier followed somewhere later by a
wolf/accusation word. -/
def wolfCheckMatch (l : List Char) : Option String :=
  match firstPlayerFrom l with
  | some (p, after) => if hasAnyWolfWordCi after then some p else none
  | none => none

/-- Role-claim tracking (english loop over all four roles, then the
Chinese claim map, then the wolf-check claim). -/
def claimBlock (s : AgentState) (m : GameMsg) : AgentState :=
  if isPlayerSpeaker m.speaker then
    let content := m.content.data
    let lower := lowerChars content
    let pr1 := enClaimRoles.foldl
      (fun pr r =>
        if containsChars (iAm r).data lower || containsChars (iM r).data lower then
          recordClaim m.speaker r pr
        else pr) (s.claimedRoles, s.seerClaims)
    let pr2 := cnClaimRoles.foldl
      (fun pr q =>
        if hasSub content ("我是" ++ q.1) || hasSub content ("我就是" ++ q.1) then
          recordClaim m.speaker q.2 pr
        else pr) pr1
    let s2 := { s with claimedRoles := pr2.1, seerClaims := pr2.2 }
    match wolfCheckMatch content with
    | some p =>
      if m.speaker ∈ s2.seerClaims then
        { s2 with wolfChecks := alSet m.speaker p s2.wolfChecks }
      else s2
    | none => s2
  else s

def accWords : List String := ["suspicious", "werewolf", "wolf", "狼", "可疑", "怀疑"]

/-- End position (relative to the scanned list) of the last occurrence of
an accusation word, matching the greedy `.*(?:...)` of the source regex:
the match extends to the last position where an alternative starts, and
at that position the first alternative in listed order wins. -/
def lastAccEndAux : Nat → List Char → Option Nat → Nat → Option Nat
  | 0, _, best, _ => best
  | fuel + 1, l, best, idx =>
    let best' :=
      match accWords.find? (fun w => ciStartsWith (lowerChars w.data) l) with
      | some w => some (idx + w.data.length)
      | none => best
    match l with
    | [] => best'
    | _ :: rest => lastAccEndAux fuel rest best' (idx + 1)

def lastAccEnd (l : List Char) : Option Nat := lastAccEndAux (l.length + 1) l none 0

/-- Hand-compiled `re.findall(r"(Player\d+).*(?:suspicious|werewolf|wolf|狼|可疑|怀疑)", content, re.I)`. -/
def accMatchesAux : Nat → List Char → List String
  | 0, _ => []
  | fuel + 1, l =>
    match firstPlayerFrom l with
    | none => []
    | some (p, after) =>
      match lastAccEnd after with
      | some e => p :: accMatchesAux fuel (after.drop e)
      | none => []

def accMatches (l : List Char) : List String := accMatchesAux l.length l

/-- Accusation tracking: ensure the speaker has a `speech_patterns` entry
and append an `accused:X` tag per extracted accusation. -/
def accusationBlock (s : AgentState) (m : GameMsg) : AgentState :=
  if isPlayerSpeaker m.speaker ∧ m.speaker ≠ s.name then
    let base := alGetD s.speechPatterns m.speaker []
    let accused := accMatches m.content.data
    { s with speechPatterns :=
        (alSet m.speaker (base ++ accused.map (fun a => accusedTag ++ a))
          s.speechPatterns) }
  else s

/-- `_extract_game_info(msg)`: all blocks applied in source order.
(The final opponent-profile update touches only `opponent_profiles`,
which is outside the modelled belief state.) -/
def extractGameInfo (s : AgentState) (m : GameMsg) : AgentState :=
  let s1 := roleBlock s m
  let s2 := teammateBlock s1 m
  let s3 := seerResultBlock s2 m
  let s4 := deathBlock s3 m
  let s5 := gameStartBlock s4 m
  let s6 := phaseBlock s5 m
  let s7 := speechOrderBlock s6 m
  let s8 := voteBlock s7 m
  let s9 := claimBlock s8 m
  accusationBlock s9 m

/-- Observing a list of messages in order. -/
def observeAll (s : AgentState) (ms : List GameMsg) : AgentState :=
  ms.foldl extractGameInfo s

/-- Removing a key; used to phrase "all else equal" comparisons of
credibility-evaluator inputs. -/
def eraseKey (k : String) : List (String × String) → List (String × String)
  | [] => []
  | kv :: rest => if kv.1 = k then eraseKey k rest else kv :: eraseKey k rest

/-! ## Concrete states and messages for witnesses and counterexamples -/

def apostr : String := String.singleton apos

/-- `You've checked Player2, result is: werewolf` (moderator check-result). -/
def msgSeerResult : GameMsg :=
  ⟨"Moderator", youveChecked ++ " Player2, result is: werewolf"⟩

/-- `You've checked Player2.` — names the checked player but carries no
`result` marker. -/
def msgSeerRequest : GameMsg := ⟨"Moderator", youveChecked ++ " Player2."⟩

def exSeerState : AgentState := { initState "Player1" with role := some "seer" }

/-- A mid-game state used to exercise suspicion updates. -/
def c10pre : AgentState :=
  { initState "Player1" with
      phase := "day", speechOrder := 3, myPosition := 1,
      alivePlayers := ["Player1", "Player2", "Player3", "Player4"],
      votingHistory := [("Player2", ["Player3", "Player4", "Player3"])],
      suspicions := [("Player2", 3/20), ("Player1", 3/20)],
      speechPatterns := [("Player2", [])] }

/-- A transcript reaching the self-suspicion scenario from the initial
state: roster, day break, then three votes by Player2. -/
def c10transcript : List GameMsg :=
  [⟨"Moderator", "A new game has started, players are Player1, Player2, Player3, Player4"⟩,
   ⟨"Moderator", "The day is coming"⟩,
   ⟨"Player2", "I vote Player3"⟩,
   ⟨"Player2", "I vote Player4"⟩,
   ⟨"Player2", "I vote Player3"⟩]

/-- Seer claimant whose recorded check names a still-alive target. -/
def c5state : AgentState :=
  { initState "Player9" with
      seerClaims := ["Player1"],
      wolfChecks := [("Player1", "Player2")] }

/-- Five seer claimants; Player1's check names Player9, and the four
rivals all name Player1. -/
def c6unv : AgentState :=
  { initState "Player8" with
      seerClaims := ["Player1", "Player2", "Player3", "Player4", "Player5"],
      wolfChecks :=
        [("Player1", "Player9"), ("Player2", "Player1"), ("Player3", "Player1"),
         ("Player4", "Player1"), ("Player5", "Player1")] }

/-- Same state with Player9 dead and confirmed werewolf. -/
def c6ver : AgentState :=
  { c6unv with
      deadPlayers := ["Player9"],
      knownRoles := [("Player9", "werewolf")] }

/-- State with accumulated game knowledge, observed before a roster
announcement. -/
def c7state : AgentState :=
  { initState "Player1" with
      teammates := ["Player3"],
      knownRoles := [("Player3", "werewolf")],
      suspicions := [("Player5", 1/2)],
      deadPlayers := ["Player6"],
      votingHistory := [("Player5", ["Player6"])],
      speechPatterns := [("Player5", ["accused:Player6"])],
      claimedRoles := [("Player5", "seer")],
      seerClaims := ["Player5"],
      myPosition := 5 }

def msgRoster : GameMsg :=
  ⟨"Moderator", "A new game has started, players are Player1, Player2, Player3, Player4"⟩

/-- Roster message that does not name this agent (`Player1`). -/
def msgRosterNoSelf : GameMsg :=
  ⟨"Moderator", "A new game has started, players are Player2, Player3"⟩

def msgRoleSeer : GameMsg := ⟨"Moderator", "Player1, your role is seer."⟩

/-- A later message that also matches the self-role disclosure pattern. -/
def msgRoleOverwrite : GameMsg := ⟨"Player5", "Player1 your role is werewolf I think"⟩

def msgDeath : GameMsg := ⟨"Moderator", "Player3 was eliminated last night"⟩

def msgDay : GameMsg := ⟨"Moderator", "The day is coming"⟩

def c1state : AgentState :=
  { initState "Player1" with
      alivePlayers := ["Player1", "Player2", "Player3"],
      pendingDeadPlayers := ["Player3"] }

/-- An agent carrying a position from a previous game. -/
def c8state : AgentState := { initState "Player1" with myPosition := 5 }

/-- Does the self-role-disclosure block write `role` on this message?
True exactly when the guard fires and one of the role loops matches. -/
def roleDisclosureFires (s : AgentState) (m : GameMsg) : Bool :=
  (roleMarker m.content.data && containsChars s.name.data m.content.data) &&
    (roleScan m.content.data).isSome

/-! # Theorems -/

/-! ## Association list and bump lemmas -/

theorem alGetD_bump_same (m : List (String × ℚ)) (k : String) (d : ℚ) :
    alGetD (bump k d m) k 0 = alGetD m k 0 + d := by
  simp [bump, alGetD_alSet_same]

theorem alGetD_bump_other (m : List (String × ℚ)) (k p : String) (d : ℚ)
    (h : p ≠ k) : alGetD (bump k d m) p 0 = alGetD m p 0 := by
  unfold bump alGetD
  rw [alGet_alSet_other _ _ _ _ h]

theorem alGetD_bump_le (m : List (String × ℚ)) (k p : String) (d : ℚ)
    (hd : 0 ≤ d) : alGetD m p 0 ≤ alGetD (bump k d m) p 0 := by
  by_cases h : p = k
  · subst h; rw [alGetD_bump_same]; linarith
  · rw [alGetD_bump_other m k p d h]

/-! ## Monotonicity of the suspicion engine (claim C3) -/

theorem foldl_bumpIf_le (c : String → Prop) [DecidablePred c] (d : ℚ)
    (hd : 0 ≤ d) (l : List String) (m0 : List (String × ℚ)) (p : String) :
    alGetD m0 p 0 ≤
      alGetD (l.foldl (fun m v => if c v then bump v d m else m) m0) p 0 := by
  induction l generalizing m0 with
  | nil => simp
  | cons a rest ih =>
    refine le_trans ?_ (ih _)
    by_cases hc : c a
    · simp only [List.foldl, hc, if_pos]
      exact alGetD_bump_le m0 a p d hd
    · simp [hc]

theorem mutualStep_le (s : AgentState) (voter : String) (votes : List String)
    (m : List (String × ℚ)) (a p : String) :
    alGetD m p 0 ≤ alGetD (mutualStep s voter votes m a) p 0 := by
  unfold mutualStep
  split
  · refine le_trans (alGetD_bump_le m voter p (3/20) (by norm_num)) ?_
    exact alGetD_bump_le _ a p (3/20) (by norm_num)
  · exact le_rfl

theorem foldl_mutual_le (s : AgentState) (voter : String) (votes : List String)
    (l : List String) (m0 : List (String × ℚ)) (p : String) :
    alGetD m0 p 0 ≤ alGetD (l.foldl (mutualStep s voter votes) m0) p 0 := by
  induction l generalizing m0 with
  | nil => simp
  | cons a rest ih =>
    exact le_trans (mutualStep_le s voter votes m0 a p) (ih _)

theorem rule1sus_le (s : AgentState) (voter target p : String) :
    alGetD s.suspicions p 0 ≤ alGetD (rule1sus s voter target) p 0 := by
  unfold rule1sus
  split
  · exact le_rfl
  · split
    · exact alGetD_bump_le _ voter p (1/4) (by norm_num)
    · exact le_rfl

theorem rule2sus_le (s : AgentState) (voter target p : String) :
    alGetD s.suspicions p 0 ≤ alGetD (rule2sus s voter target) p 0 := by
  unfold rule2sus
  split
  · exact le_rfl
  · split
    · exact alGetD_bump_le _ voter p (7/20) (by norm_num)
    · exact le_rfl

theorem rule3sus_le (s : AgentState) (voter target p : String) :
    alGetD s.suspicions p 0 ≤ alGetD (rule3sus s voter target) p 0 := by
  unfold rule3sus
  split
  · exact alGetD_bump_le _ voter p (3/10) (by norm_num)
  · exact le_rfl

theorem coordSus1_le (s : AgentState) (target : String) (vft : List String)
    (p : String) :
    alGetD s.suspicions p 0 ≤ alGetD (coordSus1 s target vft) p 0 := by
  unfold coordSus1
  split
  · split
    · exact foldl_bumpIf_le (fun v => v ≠ s.name) (1/10) (by norm_num) _ _ p
    · exact le_rfl
  · exact le_rfl

theorem coordSus_le (s : AgentState) (voter target p : String) :
    alGetD s.suspicions p 0 ≤ alGetD (coordSus s voter target) p 0 := by
  unfold coordSus
  dsimp only
  refine le_trans (coordSus1_le s target (votersFor s target) p) ?_
  split
  · exact foldl_bumpIf_le (fun v => v ≠ s.name ∧ v ≠ voter) (1/20) (by norm_num) _ _ p
  · exact le_rfl

theorem rule5sus_le (s : AgentState) (voter p : String) :
    alGetD s.suspicions p 0 ≤ alGetD (rule5sus s voter) p 0 := by
  unfold rule5sus
  split
  · exact le_rfl
  · split
    · exact foldl_mutual_le s voter _ _ _ p
    · exact le_rfl

/-- One full `_update_suspicion_from_vote` call never decreases any score. -/
theorem updateSuspicion_le (s : AgentState) (voter target p : String) :
    alGetD s.suspicions p 0 ≤
      alGetD (updateSuspicionFromVote s voter target).suspicions p 0 := by
  unfold updateSuspicionFromVote
  calc alGetD s.suspicions p 0
      ≤ alGetD (rule1 s voter target).suspicions p 0 := rule1sus_le s voter target p
    _ ≤ alGetD (rule2 (rule1 s voter target) voter target).suspicions p 0 :=
        rule2sus_le _ voter target p
    _ ≤ alGetD (rule3 (rule2 (rule1 s voter target) voter target) voter target).suspicions p 0 :=
        rule3sus_le _ voter target p
    _ ≤ alGetD (detectVoteCoordination (rule3 (rule2 (rule1 s voter target) voter target) voter target) voter target).suspicions p 0 :=
        coordSus_le _ voter target p
    _ ≤ _ := rule5sus_le _ voter p

/-- C3: across any sequence of vote-update calls, every player's suspicion
score is monotonically non-decreasing: no rule of
`_update_suspicion_from_vote` (including `_detect_vote_coordination`)
ever decreases any score. -/
theorem claim_C3_suspicion_monotone (s : AgentState)
    (votes : List (String × String)) (p : String) :
    alGetD s.suspicions p 0 ≤
      alGetD ((votes.foldl
        (fun st vt => updateSuspicionFromVote st vt.1 vt.2) s).suspicions) p 0 := by
  induction votes generalizing s with
  | nil => exact le_rfl
  | cons vt rest ih =>
    exact le_trans (updateSuspicion_le s vt.1 vt.2 p) (ih _)

/-! ## Credibility evaluator range (claim C4) -/

/-- C4: `_evaluate_seer_credibility` returns exactly 0 for a player not in
`seer_claims`, and a value in the closed interval `[0, 1]` for a player in
`seer_claims`. -/
theorem claim_C4_credibility_range (s : AgentState) (p : String) :
    (p ∉ s.seerClaims → evalSeerCredibility s p = 0) ∧
    (p ∈ s.seerClaims →
      0 ≤ evalSeerCredibility s p ∧ evalSeerCredibility s p ≤ 1) := by
  constructor
  · intro h
    simp [evalSeerCredibility, h]
  · intro h
    rw [evalSeerCredibility, if_pos h]
    refine ⟨le_max_left 0 _, max_le (by norm_num) (min_le_left 1 _)⟩

/-- Witness for C4 at a concrete state: `Player9` has not claimed seer and
scores exactly 0; `Player1` has claimed and scores within `[0, 1]`. -/
theorem claim_C4_witness :
    evalSeerCredibility c5state "Player9" = 0 ∧
    (0 ≤ evalSeerCredibility c5state "Player1" ∧
     evalSeerCredibility c5state "Player1" ≤ 1) := by
  constructor
  · exact (claim_C4_credibility_range c5state "Player9").1 (by decide)
  · exact (claim_C4_credibility_range c5state "Player1").2 (by decide)

/-! ## Credibility evaluator: wolf-check adjustment (claims C5, C6) -/

theorem alGet_eraseKey_self (k : String) (m : List (String × String)) :
    alGet (eraseKey k m) k = none := by
  induction m with
  | nil => rfl
  | cons kv rest ih =>
    by_cases h : kv.1 = k
    · simpa [eraseKey, h] using ih
    · simpa [eraseKey, h, alGet] using ih

theorem crossAdj_foldl_le (seer : String) (l : List (String × String)) (a : ℚ) :
    l.foldl (fun acc kv => if kv.1 ≠ seer ∧ kv.2 = seer then acc - 1/5 else acc) a ≤ a := by
  induction l generalizing a with
  | nil => exact le_rfl
  | cons kv rest ih =>
    simp only [List.foldl]
    split
    · exact le_trans (ih _) (by linarith)
    · exact ih a

theorem crossAdj_nonpos (s : AgentState) (seer : String) : crossAdj s seer ≤ 0 :=
  crossAdj_foldl_le seer s.wolfChecks 0

theorem crossAdj_foldl_eraseKey (seer : String) (l : List (String × String)) (a : ℚ) :
    (eraseKey seer l).foldl
        (fun acc kv => if kv.1 ≠ seer ∧ kv.2 = seer then acc - 1/5 else acc) a =
      l.foldl (fun acc kv => if kv.1 ≠ seer ∧ kv.2 = seer then acc - 1/5 else acc) a := by
  induction l generalizing a with
  | nil => rfl
  | cons kv rest ih =>
    by_cases h : kv.1 = seer
    · have hc : ¬ (kv.1 ≠ seer ∧ kv.2 = seer) := fun hx => hx.1 h
      simp only [eraseKey, List.foldl_cons]
      rw [if_pos h, if_neg hc]
      exact ih a
    · simp only [eraseKey, List.foldl_cons]
      rw [if_neg h]
      simp only [List.foldl_cons]
      exact ih _

theorem ccAdj_nonpos (s : AgentState) : ccAdj s ≤ 0 := by
  unfold ccAdj; split <;> norm_num

theorem posAdj_le (s : AgentState) (seer : String) : posAdj s seer ≤ 1/10 := by
  unfold posAdj
  dsimp only
  split
  · split
    · exact le_rfl
    · split <;> norm_num
  · norm_num

theorem wcAdj_le (s : AgentState) (seer : String) : wcAdj s seer ≤ 3/10 := by
  unfold wcAdj
  split
  · norm_num
  · split
    · split <;> norm_num
    · norm_num

/-- C5 (amended): whenever the evaluated claimant has a recorded
`wolf_checks` entry for target `t`, the entry contributes `+0.3` to the
running score when `t` is dead and confirmed werewolf, `-0.1` when `t` is
dead but not confirmed werewolf, and nothing at all when `t` is not in
`dead_players` (the source only reaches the `-0.1` branch inside the
`checked_player in self.dead_players` test). -/
theorem claim_C5_wolf_check_adjustment (s : AgentState) (p t : String)
    (h : alGet s.wolfChecks p = some t) :
    seerScore s p =
      seerScore { s with wolfChecks := eraseKey p s.wolfChecks } p +
        (if t ∈ s.deadPlayers then
           if alGet s.knownRoles t = some werewolfStr then 3/10 else -(1/10)
         else 0) := by
  have hcc : ccAdj { s with wolfChecks := eraseKey p s.wolfChecks } = ccAdj s := rfl
  have hpos : posAdj { s with wolfChecks := eraseKey p s.wolfChecks } p = posAdj s p := rfl
  have hwcE : wcAdj { s with wolfChecks := eraseKey p s.wolfChecks } p = 0 := by
    unfold wcAdj
    simp [alGet_eraseKey_self]
  have hcross : crossAdj { s with wolfChecks := eraseKey p s.wolfChecks } p = crossAdj s p := by
    unfold crossAdj
    exact crossAdj_foldl_eraseKey p s.wolfChecks 0
  have hwc : wcAdj s p =
      (if t ∈ s.deadPlayers then
         if alGet s.knownRoles t = some werewolfStr then 3/10 else -(1/10)
       else 0) := by
    unfold wcAdj
    rw [h]
  unfold seerScore
  rw [hcc, hpos, hwcE, hcross, hwc]
  ring

/-- Witness for C5: Player1's recorded check of the still-alive Player2
contributes exactly 0 to the running score. -/
theorem claim_C5_witness :
    seerScore c5state "Player1" =
      seerScore { c5state with wolfChecks := eraseKey "Player1" c5state.wolfChecks } "Player1" +
        (if "Player2" ∈ c5state.deadPlayers then
           if alGet c5state.knownRoles "Player2" = some werewolfStr then 3/10 else -(1/10)
         else 0) :=
  claim_C5_wolf_check_adjustment c5state "Player1" "Player2" (by decide)

/-- Counterexample to C5 as stated: the claim demands a `-0.1` penalty for
an unverified check whose target is not dead, but in `c5state` (claimant
Player1 checked the alive Player2) the credibility is the base `0.5`,
identical to the state with no recorded check, not `0.4` as the claim
predicts. -/
theorem claim_C5_counterexample :
    alGet c5state.wolfChecks "Player1" = some "Player2" ∧
    "Player2" ∉ c5state.deadPlayers ∧
    evalSeerCredibility c5state "Player1" = 1/2 ∧
    evalSeerCredibility { c5state with wolfChecks := [] } "Player1" = 1/2 ∧
    evalSeerCredibility c5state "Player1" ≠ 1/2 - 1/10 := by
  refine ⟨by decide, by decide, ?_, ?_, ?_⟩ <;>
    norm_num +decide [evalSeerCredibility, seerScore, ccAdj, wcAdj, posAdj, crossAdj,
      c5state, initState, alGet, werewolfStr]

/-- C6 (amended): holding all else equal, turning the evaluated claimant's
recorded check target from unverified (not dead) into verified (dead and
confirmed werewolf) never lowers the credibility score, and raises it
strictly whenever the verified score is nonzero.  (Strictness fails in
general: the clamp to `[0, 1]` can pin both scores at 0.) -/
theorem claim_C6_verified_not_lower (s : AgentState) (p t : String)
    (h : alGet s.wolfChecks p = some t) (hud : t ∉ s.deadPlayers) :
    evalSeerCredibility s p ≤
      evalSeerCredibility
        { s with deadPlayers := s.deadPlayers ++ [t],
                 knownRoles := alSet t werewolfStr s.knownRoles } p ∧
    (0 < evalSeerCredibility
        { s with deadPlayers := s.deadPlayers ++ [t],
                 knownRoles := alSet t werewolfStr s.knownRoles } p →
      evalSeerCredibility s p <
        evalSeerCredibility
          { s with deadPlayers := s.deadPlayers ++ [t],
                   knownRoles := alSet t werewolfStr s.knownRoles } p) := by
  set sv : AgentState :=
    { s with deadPlayers := s.deadPlayers ++ [t],
             knownRoles := alSet t werewolfStr s.knownRoles } with hsv
  have hwcu : wcAdj s p = 0 := by
    unfold wcAdj
    rw [h]
    simp [hud]
  have hwcv : wcAdj sv p = 3/10 := by
    unfold wcAdj
    have : alGet sv.wolfChecks p = some t := h
    rw [this]
    have ht : t ∈ sv.deadPlayers := by
      rw [hsv]; exact List.mem_append_right _ (List.mem_singleton_self t)
    simp [ht, alGet_alSet_same]
  have hscore : seerScore sv p = seerScore s p + 3/10 := by
    unfold seerScore
    have hcc : ccAdj sv = ccAdj s := rfl
    have hpos : posAdj sv p = posAdj s p := rfl
    have hcross : crossAdj sv p = crossAdj s p := rfl
    rw [hcc, hpos, hcross, hwcu, hwcv]
    ring
  have hbound : seerScore sv p ≤ 9/10 := by
    unfold seerScore
    have h1 := ccAdj_nonpos sv
    have h2 := posAdj_le sv p
    have h3 := crossAdj_nonpos sv p
    rw [hwcv]
    linarith
  by_cases hmem : p ∈ s.seerClaims
  · have hmemv : p ∈ sv.seerClaims := hmem
    rw [evalSeerCredibility, evalSeerCredibility, if_pos hmem, if_pos hmemv]
    have hmin_v : min 1 (seerScore sv p) = seerScore sv p :=
      min_eq_right (le_trans hbound (by norm_num))
    have hmin_u : min 1 (seerScore s p) = seerScore s p :=
      min_eq_right (by rw [hscore] at hbound; linarith)
    rw [hmin_v, hmin_u]
    constructor
    · exact max_le_max le_rfl (by linarith [hscore])
    · intro hpos0
      have hv : max 0 (seerScore sv p) = seerScore sv p := by
        rcases max_choice 0 (seerScore sv p) with hc | hc
        · rw [hc] at hpos0; exact absurd hpos0 (lt_irrefl 0)
        · exact hc
      rw [hv] at hpos0 ⊢
      rcases le_or_lt (seerScore s p) 0 with hle | hlt
      · calc max 0 (seerScore s p) = 0 := max_eq_left hle
          _ < seerScore sv p := hpos0
      · calc max 0 (seerScore s p) = seerScore s p := max_eq_right (le_of_lt hlt)
          _ < seerScore sv p := by linarith [hscore]
  · have hmemv : p ∉ sv.seerClaims := hmem
    rw [evalSeerCredibility, evalSeerCredibility, if_neg hmem, if_neg hmemv]
    exact ⟨le_rfl, fun hc => absurd hc (lt_irrefl 0)⟩

/-- Witness for C6: verifying Player1's check of Player2 raises the score
from `0.5` and the inequality is strict there. -/
theorem claim_C6_witness :
    evalSeerCredibility c5state "Player1" ≤
      evalSeerCredibility
        { c5state with deadPlayers := c5state.deadPlayers ++ ["Player2"],
                       knownRoles := alSet "Player2" werewolfStr c5state.knownRoles } "Player1" ∧
    (0 < evalSeerCredibility
        { c5state with deadPlayers := c5state.deadPlayers ++ ["Player2"],
                       knownRoles := alSet "Player2" werewolfStr c5state.knownRoles } "Player1" →
      evalSeerCredibility c5state "Player1" <
        evalSeerCredibility
          { c5state with deadPlayers := c5state.deadPlayers ++ ["Player2"],
                         knownRoles := alSet "Player2" werewolfStr c5state.knownRoles } "Player1") :=
  claim_C6_verified_not_lower c5state "Player1" "Player2" (by decide) (by decide)

/-- Counterexample to C6 as stated: with four rival claimants all naming
Player1 as their wolf check, the clamp pins both the unverified and the
verified credibility at 0, so the verified score is not strictly higher. -/
theorem claim_C6_counterexample :
    alGet c6unv.wolfChecks "Player1" = some "Player9" ∧
    "Player9" ∉ c6unv.deadPlayers ∧
    "Player9" ∈ c6ver.deadPlayers ∧
    alGet c6ver.knownRoles "Player9" = some werewolfStr ∧
    evalSeerCredibility c6unv "Player1" = 0 ∧
    evalSeerCredibility c6ver "Player1" = 0 ∧
    ¬ (evalSeerCredibility c6unv "Player1" < evalSeerCredibility c6ver "Player1") := by
  refine ⟨by decide, by decide, by decide, by decide, ?_, ?_, ?_⟩ <;>
    norm_num +decide [evalSeerCredibility, seerScore, ccAdj, wcAdj, posAdj, crossAdj,
      c6unv, c6ver, initState, alGet, werewolfStr]

/-! ## Extractor block lemmas: guard-false no-ops and untouched fields -/

theorem roleBlock_noop (s : AgentState) (m : GameMsg)
    (h : roleMarker m.content.data = false) : roleBlock s m = s := by
  unfold roleBlock; simp [h]

theorem teammateBlock_noop_marker (s : AgentState) (m : GameMsg)
    (h : wolfChannelMarker m.content.data = false) : teammateBlock s m = s := by
  unfold teammateBlock; simp [h]

theorem teammateBlock_noop_role (s : AgentState) (m : GameMsg)
    (h : s.role ≠ some werewolfStr) : teammateBlock s m = s := by
  unfold teammateBlock; simp [h]

theorem seerResultBlock_noop_marker (s : AgentState) (m : GameMsg)
    (h : seerMarker m.content.data = false) : seerResultBlock s m = s := by
  unfold seerResultBlock; simp [h]

theorem seerResultBlock_noop_role (s : AgentState) (m : GameMsg)
    (h : s.role ≠ some "seer") : seerResultBlock s m = s := by
  unfold seerResultBlock; simp [h]

theorem deathBlock_noop (s : AgentState) (m : GameMsg)
    (h : deathMarker m.content.data = false) : deathBlock s m = s := by
  unfold deathBlock; simp [h]

theorem gameStartBlock_noop (s : AgentState) (m : GameMsg)
    (h : startMarker m.content.data = false) : gameStartBlock s m = s := by
  unfold gameStartBlock; simp [h]

theorem phaseBlock_noop (s : AgentState) (m : GameMsg)
    (hn : nightMarker m.content.data = false)
    (hd : dayMarker m.content.data = false) : phaseBlock s m = s := by
  unfold phaseBlock; simp [hn, hd]

theorem speechOrderBlock_noop (s : AgentState) (m : GameMsg)
    (h : isPlayerSpeaker m.speaker = false) : speechOrderBlock s m = s := by
  unfold speechOrderBlock; simp [h]

theorem voteBlock_noop (s : AgentState) (m : GameMsg)
    (h : isPlayerSpeaker m.speaker = false) : voteBlock s m = s := by
  unfold voteBlock; simp [h]

theorem claimBlock_noop (s : AgentState) (m : GameMsg)
    (h : isPlayerSpeaker m.speaker = false) : claimBlock s m = s := by
  unfold claimBlock; simp [h]

theorem accusationBlock_noop (s : AgentState) (m : GameMsg)
    (h : isPlayerSpeaker m.speaker = false) : accusationBlock s m = s := by
  unfold accusationBlock; simp [h]

/-- Fields `roleBlock` never writes. -/
theorem roleBlock_same (s : AgentState) (m : GameMsg) :
    (roleBlock s m).name = s.name ∧
    (roleBlock s m).teammates = s.teammates ∧
    (roleBlock s m).suspicions = s.suspicions ∧
    (roleBlock s m).deadPlayers = s.deadPlayers ∧
    (roleBlock s m).pendingDeadPlayers = s.pendingDeadPlayers ∧
    (roleBlock s m).alivePlayers = s.alivePlayers ∧
    (roleBlock s m).votingHistory = s.votingHistory ∧
    (roleBlock s m).speechPatterns = s.speechPatterns ∧
    (roleBlock s m).phase = s.phase ∧
    (roleBlock s m).claimedRoles = s.claimedRoles ∧
    (roleBlock s m).myPosition = s.myPosition ∧
    (roleBlock s m).seerClaims = s.seerClaims ∧
    (roleBlock s m).wolfChecks = s.wolfChecks := by
  unfold roleBlock; try dsimp only
  repeat' constructor
  all_goals (repeat' split) <;> rfl

/-- Fields `teammateBlock` never writes. -/
theorem teammateBlock_same (s : AgentState) (m : GameMsg) :
    (teammateBlock s m).name = s.name ∧
    (teammateBlock s m).role = s.role ∧
    (teammateBlock s m).suspicions = s.suspicions ∧
    (teammateBlock s m).deadPlayers = s.deadPlayers ∧
    (teammateBlock s m).pendingDeadPlayers = s.pendingDeadPlayers ∧
    (teammateBlock s m).alivePlayers = s.alivePlayers ∧
    (teammateBlock s m).votingHistory = s.votingHistory ∧
    (teammateBlock s m).speechPatterns = s.speechPatterns ∧
    (teammateBlock s m).phase = s.phase ∧
    (teammateBlock s m).claimedRoles = s.claimedRoles ∧
    (teammateBlock s m).myPosition = s.myPosition ∧
    (teammateBlock s m).seerClaims = s.seerClaims ∧
    (teammateBlock s m).wolfChecks = s.wolfChecks := by
  unfold teammateBlock; try dsimp only
  repeat' constructor
  all_goals (repeat' split) <;> rfl

/-- Fields `seerResultBlock` never writes. -/
theorem seerResultBlock_same (s : AgentState) (m : GameMsg) :
    (seerResultBlock s m).name = s.name ∧
    (seerResultBlock s m).role = s.role ∧
    (seerResultBlock s m).teammates = s.teammates ∧
    (seerResultBlock s m).suspicions = s.suspicions ∧
    (seerResultBlock s m).deadPlayers = s.deadPlayers ∧
    (seerResultBlock s m).pendingDeadPlayers = s.pendingDeadPlayers ∧
    (seerResultBlock s m).alivePlayers = s.alivePlayers ∧
    (seerResultBlock s m).votingHistory = s.votingHistory ∧
    (seerResultBlock s m).speechPatterns = s.speechPatterns ∧
    (seerResultBlock s m).phase = s.phase ∧
    (seerResultBlock s m).claimedRoles = s.claimedRoles ∧
    (seerResultBlock s m).myPosition = s.myPosition ∧
    (seerResultBlock s m).seerClaims = s.seerClaims ∧
    (seerResultBlock s m).wolfChecks = s.wolfChecks := by
  unfold seerResultBlock; try dsimp only
  repeat' constructor
  all_goals (repeat' split) <;> rfl

/-- Fields `deathBlock` never writes. -/
theorem deathBlock_same (s : AgentState) (m : GameMsg) :
    (deathBlock s m).name = s.name ∧
    (deathBlock s m).role = s.role ∧
    (deathBlock s m).teammates = s.teammates ∧
    (deathBlock s m).knownRoles = s.knownRoles ∧
    (deathBlock s m).suspicions = s.suspicions ∧
    (deathBlock s m).deadPlayers = s.deadPlayers ∧
    (deathBlock s m).alivePlayers = s.alivePlayers ∧
    (deathBlock s m).votingHistory = s.votingHistory ∧
    (deathBlock s m).speechPatterns = s.speechPatterns ∧
    (deathBlock s m).phase = s.phase ∧
    (deathBlock s m).claimedRoles = s.claimedRoles ∧
    (deathBlock s m).myPosition = s.myPosition ∧
    (deathBlock s m).seerClaims = s.seerClaims ∧
    (deathBlock s m).wolfChecks = s.wolfChecks := by
  unfold deathBlock; try dsimp only
  repeat' constructor
  all_goals (repeat' split) <;> rfl

/-- Fields `gameStartBlock` never writes. -/
theorem gameStartBlock_same (s : AgentState) (m : GameMsg) :
    (gameStartBlock s m).name = s.name ∧
    (gameStartBlock s m).role = s.role ∧
    (gameStartBlock s m).teammates = s.teammates ∧
    (gameStartBlock s m).knownRoles = s.knownRoles ∧
    (gameStartBlock s m).suspicions = s.suspicions ∧
    (gameStartBlock s m).deadPlayers = s.deadPlayers ∧
    (gameStartBlock s m).pendingDeadPlayers = s.pendingDeadPlayers ∧
    (gameStartBlock s m).votingHistory = s.votingHistory ∧
    (gameStartBlock s m).speechPatterns = s.speechPatterns ∧
    (gameStartBlock s m).phase = s.phase ∧
    (gameStartBlock s m).claimedRoles = s.claimedRoles ∧
    (gameStartBlock s m).seerClaims = s.seerClaims ∧
    (gameStartBlock s m).wolfChecks = s.wolfChecks := by
  unfold gameStartBlock; try dsimp only
  repeat' constructor
  all_goals (repeat' split) <;> rfl

/-- Fields `phaseBlock` never writes. -/
theorem phaseBlock_same (s : AgentState) (m : GameMsg) :
    (phaseBlock s m).name = s.name ∧
    (phaseBlock s m).role = s.role ∧
    (phaseBlock s m).teammates = s.teammates ∧
    (phaseBlock s m).knownRoles = s.knownRoles ∧
    (phaseBlock s m).suspicions = s.suspicions ∧
    (phaseBlock s m).votingHistory = s.votingHistory ∧
    (phaseBlock s m).speechPatterns = s.speechPatterns ∧
    (phaseBlock s m).claimedRoles = s.claimedRoles ∧
    (phaseBlock s m).myPosition = s.myPosition ∧
    (phaseBlock s m).seerClaims = s.seerClaims ∧
    (phaseBlock s m).wolfChecks = s.wolfChecks := by
  unfold phaseBlock commitPending; try dsimp only
  repeat' constructor
  all_goals (repeat' split) <;> rfl

/-- Fields `speechOrderBlock` never writes. -/
theorem speechOrderBlock_same (s : AgentState) (m : GameMsg) :
    (speechOrderBlock s m).name = s.name ∧
    (speechOrderBlock s m).role = s.role ∧
    (speechOrderBlock s m).teammates = s.teammates ∧
    (speechOrderBlock s m).knownRoles = s.knownRoles ∧
    (speechOrderBlock s m).suspicions = s.suspicions ∧
    (speechOrderBlock s m).deadPlayers = s.deadPlayers ∧
    (speechOrderBlock s m).pendingDeadPlayers = s.pendingDeadPlayers ∧
    (speechOrderBlock s m).alivePlayers = s.alivePlayers ∧
    (speechOrderBlock s m).votingHistory = s.votingHistory ∧
    (speechOrderBlock s m).speechPatterns = s.speechPatterns ∧
    (speechOrderBlock s m).phase = s.phase ∧
    (speechOrderBlock s m).claimedRoles = s.claimedRoles ∧
    (speechOrderBlock s m).myPosition = s.myPosition ∧
    (speechOrderBlock s m).seerClaims = s.seerClaims ∧
    (speechOrderBlock s m).wolfChecks = s.wolfChecks := by
  unfold speechOrderBlock; try dsimp only
  repeat' constructor
  all_goals (repeat' split) <;> rfl

/-- Fields `voteBlock` never writes (the suspicion engine it invokes only
writes `suspicions`). -/
theorem voteBlock_same (s : AgentState) (m : GameMsg) :
    (voteBlock s m).name = s.name ∧
    (voteBlock s m).role = s.role ∧
    (voteBlock s m).teammates = s.teammates ∧
    (voteBlock s m).knownRoles = s.knownRoles ∧
    (voteBlock s m).deadPlayers = s.deadPlayers ∧
    (voteBlock s m).pendingDeadPlayers = s.pendingDeadPlayers ∧
    (voteBlock s m).alivePlayers = s.alivePlayers ∧
    (voteBlock s m).speechPatterns = s.speechPatterns ∧
    (voteBlock s m).phase = s.phase ∧
    (voteBlock s m).claimedRoles = s.claimedRoles ∧
    (voteBlock s m).myPosition = s.myPosition ∧
    (voteBlock s m).seerClaims = s.seerClaims ∧
    (voteBlock s m).wolfChecks = s.wolfChecks := by
  unfold voteBlock; try dsimp only
  repeat' constructor
  all_goals (repeat' split) <;> rfl

/-- Fields `claimBlock` never writes. -/
theorem claimBlock_same (s : AgentState) (m : GameMsg) :
    (claimBlock s m).name = s.name ∧
    (claimBlock s m).role = s.role ∧
    (claimBlock s m).teammates = s.teammates ∧
    (claimBlock s m).knownRoles = s.knownRoles ∧
    (claimBlock s m).suspicions = s.suspicions ∧
    (claimBlock s m).deadPlayers = s.deadPlayers ∧
    (claimBlock s m).pendingDeadPlayers = s.pendingDeadPlayers ∧
    (claimBlock s m).alivePlayers = s.alivePlayers ∧
    (claimBlock s m).votingHistory = s.votingHistory ∧
    (claimBlock s m).speechPatterns = s.speechPatterns ∧
    (claimBlock s m).phase = s.phase ∧
    (claimBlock s m).myPosition = s.myPosition := by
  unfold claimBlock; try dsimp only
  repeat' constructor
  all_goals (repeat' split) <;> rfl

/-- Fields `accusationBlock` never writes. -/
theorem accusationBlock_same (s : AgentState) (m : GameMsg) :
    (accusationBlock s m).name = s.name ∧
    (accusationBlock s m).role = s.role ∧
    (accusationBlock s m).teammates = s.teammates ∧
    (accusationBlock s m).knownRoles = s.knownRoles ∧
    (accusationBlock s m).suspicions = s.suspicions ∧
    (accusationBlock s m).deadPlayers = s.deadPlayers ∧
    (accusationBlock s m).pendingDeadPlayers = s.pendingDeadPlayers ∧
    (accusationBlock s m).alivePlayers = s.alivePlayers ∧
    (accusationBlock s m).votingHistory = s.votingHistory ∧
    (accusationBlock s m).phase = s.phase ∧
    (accusationBlock s m).claimedRoles = s.claimedRoles ∧
    (accusationBlock s m).myPosition = s.myPosition ∧
    (accusationBlock s m).seerClaims = s.seerClaims ∧
    (accusationBlock s m).wolfChecks = s.wolfChecks := by
  unfold accusationBlock; try dsimp only
  repeat' constructor
  all_goals (repeat' split) <;> rfl

/-! ## Mutual-vote-avoidance does not exclude self (claim C10) -/

theorem alGet_ne_none_of_mem {m : List (String × α)} {k : String} {v : α}
    (h : (k, v) ∈ m) : alGet m k ≠ none := by
  induction m with
  | nil => cases h
  | cons kv rest ih =>
    rcases List.mem_cons.mp h with he | hm
    · subst he; simp [alGet]
    · by_cases hk : kv.1 = k
      · simp [alGet, hk]
      · simpa [alGet, hk] using ih hm

theorem mem_currentRoundVotes_aux (l : List (String × List String))
    (dead : List String) (acc : List (String × String)) (x : String × String)
    (h : x ∈ l.foldl
      (fun acc kv =>
        match kv.2.getLast? with
        | none => acc
        | some t => if kv.1 ∈ dead then acc else acc ++ [(kv.1, t)]) acc) :
    x ∈ acc ∨ ∃ votes, (x.1, votes) ∈ l := by
  induction l generalizing acc with
  | nil => exact Or.inl h
  | cons kv rest ih =>
    simp only [List.foldl_cons] at h
    rcases ih _ h with hacc | ⟨votes, hmem⟩
    · revert hacc
      split
      · exact fun hacc => Or.inl hacc
      · split
        · exact fun hacc => Or.inl hacc
        · intro hacc
          rcases List.mem_append.mp hacc with h1 | h2
          · exact Or.inl h1
          · rcases List.mem_singleton.mp h2 with rfl
            exact Or.inr ⟨kv.2, by simp⟩
    · exact Or.inr ⟨votes, List.mem_cons_of_mem _ hmem⟩

theorem not_mem_votersFor (s : AgentState) (target p : String)
    (h : alGet s.votingHistory p = none) : p ∉ votersFor s target := by
  intro hp
  unfold votersFor at hp
  rcases List.mem_map.mp hp with ⟨kv, hkv, hfst⟩
  have hcrv : kv ∈ currentRoundVotes s := (List.mem_filter.mp hkv).1
  rcases mem_currentRoundVotes_aux s.votingHistory s.deadPlayers [] kv hcrv with
    habs | ⟨votes, hmem⟩
  · cases habs
  · rw [hfst] at hmem
    exact alGet_ne_none_of_mem hmem h

theorem foldl_bumpIf_other (c : String → Prop) [DecidablePred c] (d : ℚ)
    (l : List String) (m0 : List (String × ℚ)) (p : String) (hp : p ∉ l) :
    alGetD (l.foldl (fun m v => if c v then bump v d m else m) m0) p 0 =
      alGetD m0 p 0 := by
  induction l generalizing m0 with
  | nil => rfl
  | cons a rest ih =>
    have hpa : p ≠ a := fun hc => hp (hc ▸ List.mem_cons_self a rest)
    have hprest : p ∉ rest := fun hc => hp (List.mem_cons_of_mem a hc)
    simp only [List.foldl_cons]
    rw [ih _ hprest]
    split
    · exact alGetD_bump_other m0 a p d hpa
    · rfl

theorem coordSus1_other (s : AgentState) (target : String) (vft : List String)
    (p : String) (hp : p ∉ vft) :
    alGetD (coordSus1 s target vft) p 0 = alGetD s.suspicions p 0 := by
  unfold coordSus1
  split
  · split
    · exact foldl_bumpIf_other (fun v => v ≠ s.name) (1/10) vft s.suspicions p hp
    · rfl
  · rfl

theorem coordSus_other (s : AgentState) (voter target p : String)
    (hp : p ∉ votersFor s target) :
    alGetD (coordSus s voter target) p 0 = alGetD s.suspicions p 0 := by
  unfold coordSus
  dsimp only
  rw [show alGetD
      (if 3 < s.speechOrder ∧ 2 ≤ (votersFor s target).length then
        (votersFor s target).foldl
          (fun m v => if v ≠ s.name ∧ v ≠ voter then bump v (1/20) m else m)
          (coordSus1 s target (votersFor s target))
      else coordSus1 s target (votersFor s target)) p 0 =
      alGetD (coordSus1 s target (votersFor s target)) p 0 from ?_]
  · exact coordSus1_other s target _ p hp
  · split
    · exact foldl_bumpIf_other (fun v => v ≠ s.name ∧ v ≠ voter) (1/20) _ _ p hp
    · rfl

theorem rule1sus_other (s : AgentState) (voter target p : String) (h : p ≠ voter) :
    alGetD (rule1sus s voter target) p 0 = alGetD s.suspicions p 0 := by
  unfold rule1sus
  split
  · rfl
  · split
    · exact alGetD_bump_other _ voter p (1/4) h
    · rfl

theorem rule2sus_other (s : AgentState) (voter target p : String) (h : p ≠ voter) :
    alGetD (rule2sus s voter target) p 0 = alGetD s.suspicions p 0 := by
  unfold rule2sus
  split
  · rfl
  · split
    · exact alGetD_bump_other _ voter p (7/20) h
    · rfl

theorem rule3sus_other (s : AgentState) (voter target p : String) (h : p ≠ voter) :
    alGetD (rule3sus s voter target) p 0 = alGetD s.suspicions p 0 := by
  unfold rule3sus
  split
  · exact alGetD_bump_other _ voter p (3/10) h
  · rfl

theorem mutualStep_other (s : AgentState) (voter : String) (votes : List String)
    (m : List (String × ℚ)) (a p : String) (hpa : p ≠ a) (hpv : p ≠ voter) :
    alGetD (mutualStep s voter votes m a) p 0 = alGetD m p 0 := by
  unfold mutualStep
  split
  · rw [alGetD_bump_other _ a p (3/20) hpa, alGetD_bump_other _ voter p (3/20) hpv]
  · rfl

theorem foldl_mutual_other (s : AgentState) (voter : String) (votes : List String)
    (l : List String) (m : List (String × ℚ)) (p : String)
    (hp : p ∉ l) (hpv : p ≠ voter) :
    alGetD (l.foldl (mutualStep s voter votes) m) p 0 = alGetD m p 0 := by
  induction l generalizing m with
  | nil => rfl
  | cons a rest ih =>
    have hpa : p ≠ a := fun hc => hp (hc ▸ List.mem_cons_self a rest)
    have hprest : p ∉ rest := fun hc => hp (List.mem_cons_of_mem a hc)
    simp only [List.foldl_cons]
    rw [ih _ hprest, mutualStep_other s voter votes m a p hpa hpv]

theorem foldl_mutual_add (s : AgentState) (voter : String) (votes : List String)
    (l : List String) (m : List (String × ℚ)) (p : String)
    (hnd : l.Nodup) (hp : p ∈ l) (hpv : p ≠ voter)
    (hq1 : p ∉ votes) (hq2 : voter ∉ alGetD s.votingHistory p []) :
    alGetD (l.foldl (mutualStep s voter votes) m) p 0 = alGetD m p 0 + 3/20 := by
  induction l generalizing m with
  | nil => cases hp
  | cons a rest ih =>
    rcases List.nodup_cons.mp hnd with ⟨hanotin, hndrest⟩
    simp only [List.foldl_cons]
    rcases List.mem_cons.mp hp with rfl | hprest
    · have hstep : mutualStep s voter votes m p =
          bump p (3/20) (bump voter (3/20) m) := by
        unfold mutualStep
        rw [if_pos ⟨hpv, hq1, hq2⟩]
      rw [foldl_mutual_other s voter votes rest _ p hanotin hpv, hstep,
        alGetD_bump_same, alGetD_bump_other _ voter p (3/20) hpv]
    · have hpa : p ≠ a := fun hc => hanotin (hc ▸ hprest)
      rw [ih _ hndrest hprest, mutualStep_other s voter votes m a p hpa hpv]

/-- C10: the mutual-vote-avoidance rule of `_update_suspicion_from_vote`
never excludes this agent's own identifier.  Whenever the voter has at
least two recorded votes, any `p` in `alive_players` other than the voter
with no mutual votes with the voter (and no own vote record, so that no
other rule touches `p`) — in particular `p` may be the agent's own name —
has its suspicion score increased by exactly `0.15`. -/
theorem claim_C10_self_not_excluded (s : AgentState) (voter target p : String)
    (hlen : 2 ≤ (alGetD s.votingHistory voter []).length)
    (hp : p ∈ s.alivePlayers) (hnd : s.alivePlayers.Nodup) (hpv : p ≠ voter)
    (hnv : p ∉ alGetD s.votingHistory voter [])
    (hnone : alGet s.votingHistory p = none) :
    alGetD (updateSuspicionFromVote s voter target).suspicions p 0 =
      alGetD s.suspicions p 0 + 3/20 := by
  obtain ⟨votes, hsome⟩ : ∃ votes, alGet s.votingHistory voter = some votes := by
    cases hv : alGet s.votingHistory voter with
    | none => rw [alGetD, hv] at hlen; simp at hlen
    | some votes => exact ⟨votes, rfl⟩
  have hvotes : alGetD s.votingHistory voter [] = votes := by
    rw [alGetD, hsome]; rfl
  rw [hvotes] at hlen hnv
  unfold updateSuspicionFromVote
  set s1 := rule1 s voter target with hs1
  set s2 := rule2 s1 voter target with hs2
  set s3 := rule3 s2 voter target with hs3
  set s4 := detectVoteCoordination s3 voter target with hs4
  have e1 : alGetD s1.suspicions p 0 = alGetD s.suspicions p 0 :=
    rule1sus_other s voter target p hpv
  have e2 : alGetD s2.suspicions p 0 = alGetD s1.suspicions p 0 :=
    rule2sus_other s1 voter target p hpv
  have e3 : alGetD s3.suspicions p 0 = alGetD s2.suspicions p 0 :=
    rule3sus_other s2 voter target p hpv
  have hvh3 : s3.votingHistory = s.votingHistory := rfl
  have e4 : alGetD s4.suspicions p 0 = alGetD s3.suspicions p 0 :=
    coordSus_other s3 voter target p
      (not_mem_votersFor s3 target p (hvh3 ▸ hnone))
  have hsome4 : alGet s4.votingHistory voter = some votes := hsome
  have hrule5 : alGetD (rule5 s4 voter).suspicions p 0 =
      alGetD s4.suspicions p 0 + 3/20 := by
    show alGetD (rule5sus s4 voter) p 0 = alGetD s4.suspicions p 0 + 3/20
    unfold rule5sus
    rw [hsome4]
    dsimp only
    rw [if_pos hlen]
    refine foldl_mutual_add s4 voter votes s4.alivePlayers s4.suspicions p
      hnd hp hpv hnv ?_
    have : alGetD s4.votingHistory p [] = [] := by
      rw [show s4.votingHistory = s.votingHistory from rfl, alGetD, hnone]; rfl
    rw [this]
    exact List.not_mem_nil voter
  rw [hrule5, e4, e3, e2, e1]

/-- Witness for C10: in the concrete mid-game state `c10pre` (reached by
the transcript `c10transcript` up to its last vote), the vote update
raises this agent's own suspicion score by `0.15`, and after the full
transcript the agent's own name appears in the synthesized top-suspects
list. -/
theorem claim_C10_witness :
    alGetD (updateSuspicionFromVote c10pre "Player2" "Player3").suspicions "Player1" 0 =
      alGetD c10pre.suspicions "Player1" 0 + 3/20 ∧
    "Player1" ∈ topSuspects (observeAll (initState "Player1") c10transcript) := by
  constructor
  · exact claim_C10_self_not_excluded c10pre "Player2" "Player3" "Player1"
      (by decide) (by decide) (by decide) (by decide) (by decide) (by decide)
  · norm_num +decide [observeAll, extractGameInfo, roleBlock, roleScan, roleMarker,
      teammateBlock, wolfChannelMarker, seerResultBlock, seerKnown, seerMarker,
      seerResultMatch, cnSeerMatch, cnFallback, cnRoleAfterAux, cnRoleWords,
      deathBlock, deathMarker, gameStartBlock, startMarker, dedupKeep, phaseBlock,
      nightMarker, dayMarker, commitPending, speechOrderBlock, isPlayerSpeaker,
      voteBlock, voteMarker, voteTargets, voteTargetsAux, voteKeywordHere,
      voteKeywords, firstPlayerFrom, firstPlayerFromAux, playerHere, playerLit,
      findPlayers, findPlayersAux, claimBlock, enClaimRoles, cnClaimRoles, iAm, iM,
      recordClaim, wolfWords, hasAnyWolfWordCi, wolfCheckMatch, accusationBlock,
      accWords, lastAccEnd, lastAccEndAux, accMatches, accMatchesAux, accusedTag,
      hasSub, afterFirstCi, afterFirstCiAux, containsChars, startsWithChars,
      ciStartsWith, lowerChars, isWordChar, alGet, alGetD, alSet, bump, stripAccused,
      rule1sus, rule1, rule2sus, rule2, rule3sus, rule3, votersFor, coordSus1,
      coordSus, detectVoteCoordination, currentRoundVotes, mutualStep, rule5sus,
      rule5, updateSuspicionFromVote, evalSeerCredibility, seerScore, ccAdj, wcAdj,
      posAdj, crossAdj, werewolfStr, youveChecked, initState, topSuspects,
      sortDescBy, insertDesc, c10transcript, apos]

/-! ## Staged death commit (claim C1) -/

theorem deathFold_mem (dead found pend : List String) (q : String) :
    q ∈ found.foldl (fun acc p => if p ∈ dead ∨ p ∈ acc then acc else acc ++ [p]) pend ↔
      q ∈ pend ∨ (q ∈ found ∧ q ∉ dead) := by
  induction found generalizing pend with
  | nil => simp
  | cons a rest ih =>
    simp only [List.foldl_cons]
    by_cases ha : a ∈ dead ∨ a ∈ pend
    · rw [if_pos ha, ih]
      simp only [List.mem_cons]
      constructor <;> intro h
      · tauto
      · rcases h with h1 | ⟨h2, h3⟩
        · tauto
        · rcases h2 with rfl | h2 <;> tauto
    · rw [if_neg ha, ih]
      push_neg at ha
      simp only [List.mem_append, List.mem_cons, List.not_mem_nil, or_false]
      constructor <;> intro h
      · rcases h with (h1 | rfl) | h2
        · tauto
        · exact Or.inr ⟨Or.inl rfl, ha.1⟩
        · tauto
      · tauto

theorem commitDead_mem (pend dead : List String) (q : String) :
    q ∈ pend.foldl (fun d p => if p ∈ d then d else d ++ [p]) dead ↔
      q ∈ dead ∨ q ∈ pend := by
  induction pend generalizing dead with
  | nil => simp
  | cons a rest ih =>
    simp only [List.foldl_cons]
    by_cases ha : a ∈ dead
    · rw [if_pos ha, ih]
      simp only [List.mem_cons]
      constructor <;> intro h
      · tauto
      · rcases h with h1 | (rfl | h2) <;> tauto
    · rw [if_neg ha, ih]
      simp only [List.mem_append, List.mem_singleton, List.mem_cons]
      constructor <;> intro h
      · tauto
      · tauto

theorem commitAlive_mem (pend alive : List String) (hnd : alive.Nodup) (q : String) :
    q ∈ pend.foldl (fun a p => a.erase p) alive ↔ q ∈ alive ∧ q ∉ pend := by
  induction pend generalizing alive with
  | nil => simp
  | cons a rest ih =>
    simp only [List.foldl_cons]
    rw [ih (alive.erase a) (hnd.erase a), hnd.mem_erase_iff]
    simp only [List.mem_cons]
    constructor <;> intro h <;> tauto

theorem commitPending_fields (x : AgentState) :
    (commitPending x).pendingDeadPlayers = [] ∧
    (commitPending x).deadPlayers =
      x.pendingDeadPlayers.foldl (fun d p => if p ∈ d then d else d ++ [p])
        x.deadPlayers ∧
    (commitPending x).alivePlayers =
      x.pendingDeadPlayers.foldl (fun a p => a.erase p) x.alivePlayers :=
  ⟨rfl, rfl, rfl⟩

theorem deathBlock_fires (s : AgentState) (m : GameMsg)
    (h : deathMarker m.content.data = true) :
    (deathBlock s m).pendingDeadPlayers =
      (findPlayers m.content.data).foldl
        (fun acc p => if p ∈ s.deadPlayers ∨ p ∈ acc then acc else acc ++ [p])
        s.pendingDeadPlayers := by
  unfold deathBlock
  dsimp only
  rw [if_pos h]

theorem phaseBlock_dap_not_day (s : AgentState) (m : GameMsg)
    (hd : dayMarker m.content.data = false) :
    (phaseBlock s m).deadPlayers = s.deadPlayers ∧
    (phaseBlock s m).alivePlayers = s.alivePlayers ∧
    (phaseBlock s m).pendingDeadPlayers = s.pendingDeadPlayers := by
  unfold phaseBlock
  dsimp only
  split
  · exact ⟨rfl, rfl, rfl⟩
  · rw [if_neg (by simp [hd])]
    exact ⟨rfl, rfl, rfl⟩

theorem phaseBlock_day (s : AgentState) (m : GameMsg)
    (hn : nightMarker m.content.data = false)
    (hd : dayMarker m.content.data = true) :
    phaseBlock s m = commitPending { s with phase := "day", speechOrder := 0 } := by
  unfold phaseBlock
  dsimp only
  rw [if_neg (by simp [hn]), if_pos hd]

theorem gameStartBlock_roster (s : AgentState) (m : GameMsg)
    (hstart : startMarker m.content.data = true)
    (hfound : findPlayers m.content.data ≠ []) :
    (gameStartBlock s m).alivePlayers = findPlayers m.content.data ∧
    (gameStartBlock s m).myPosition =
      (if s.name ∈ findPlayers m.content.data
       then (findPlayers m.content.data).indexOf s.name + 1 else s.myPosition) := by
  unfold gameStartBlock
  dsimp only
  rw [if_pos hstart, if_pos hfound]
  by_cases hmem : s.name ∈ findPlayers m.content.data
  · rw [if_pos hmem]
    rw [if_pos hmem]
    exact ⟨rfl, rfl⟩
  · rw [if_neg hmem]
    rw [if_neg hmem]
    exact ⟨rfl, rfl⟩

/-- Behaviour of a full extraction step on the death-tracking fields when
the message is not a day transition and not a roster announcement. -/
theorem extract_dap (s : AgentState) (m : GameMsg)
    (hdy : dayMarker m.content.data = false)
    (hst : startMarker m.content.data = false) :
    (extractGameInfo s m).deadPlayers = s.deadPlayers ∧
    (extractGameInfo s m).alivePlayers = s.alivePlayers ∧
    (extractGameInfo s m).pendingDeadPlayers =
      (deathBlock (seerResultBlock (teammateBlock (roleBlock s m) m) m) m).pendingDeadPlayers ∧
    (seerResultBlock (teammateBlock (roleBlock s m) m) m).deadPlayers = s.deadPlayers ∧
    (seerResultBlock (teammateBlock (roleBlock s m) m) m).pendingDeadPlayers =
      s.pendingDeadPlayers := by
  have h5 : gameStartBlock
      (deathBlock (seerResultBlock (teammateBlock (roleBlock s m) m) m) m) m =
      deathBlock (seerResultBlock (teammateBlock (roleBlock s m) m) m) m :=
    gameStartBlock_noop _ m hst
  have hext : extractGameInfo s m =
      accusationBlock (claimBlock (voteBlock (speechOrderBlock (phaseBlock
        (gameStartBlock (deathBlock (seerResultBlock (teammateBlock
          (roleBlock s m) m) m) m) m) m) m) m) m) m := rfl
  rw [hext, h5]
  obtain ⟨_, _, _, d1, p1, a1, _, _, _, _, _, _, _⟩ := roleBlock_same s m
  obtain ⟨_, _, _, d2, p2, a2, _, _, _, _, _, _, _⟩ :=
    teammateBlock_same (roleBlock s m) m
  obtain ⟨_, _, _, _, d3, p3, a3, _, _, _, _, _, _, _⟩ :=
    seerResultBlock_same (teammateBlock (roleBlock s m) m) m
  obtain ⟨_, _, _, _, _, d4, a4, _, _, _, _, _, _, _⟩ :=
    deathBlock_same (seerResultBlock (teammateBlock (roleBlock s m) m) m) m
  obtain ⟨d6, a6, p6⟩ := phaseBlock_dap_not_day
    (deathBlock (seerResultBlock (teammateBlock (roleBlock s m) m) m) m) m hdy
  obtain ⟨_, _, _, _, _, d7, p7, a7, _, _, _, _, _, _, _⟩ :=
    speechOrderBlock_same (phaseBlock
      (deathBlock (seerResultBlock (teammateBlock (roleBlock s m) m) m) m) m) m
  obtain ⟨_, _, _, _, d8, p8, a8, _, _, _, _, _, _⟩ :=
    voteBlock_same (speechOrderBlock (phaseBlock
      (deathBlock (seerResultBlock (teammateBlock (roleBlock s m) m) m) m) m) m) m
  obtain ⟨_, _, _, _, _, d9, p9, a9, _, _, _, _⟩ :=
    claimBlock_same (voteBlock (speechOrderBlock (phaseBlock
      (deathBlock (seerResultBlock (teammateBlock (roleBlock s m) m) m) m) m) m) m) m
  obtain ⟨_, _, _, _, _, d10, p10, a10, _, _, _, _, _, _⟩ :=
    accusationBlock_same (claimBlock (voteBlock (speechOrderBlock (phaseBlock
      (deathBlock (seerResultBlock (teammateBlock (roleBlock s m) m) m) m) m) m) m) m) m
  refine ⟨?_, ?_, ?_, ?_, ?_⟩ <;>
    simp only [d10, d9, d8, d7, d6, d4, d3, d2, d1,
      a10, a9, a8, a7, a6, a4, a3, a2, a1, p10, p9, p8, p7, p6, p3, p2, p1]

/-- Behaviour of a full extraction step on the death-tracking fields for a
pure day-transition message: the staged deaths are committed. -/
theorem extract_day (s : AgentState) (m : GameMsg)
    (hn : nightMarker m.content.data = false)
    (hd : dayMarker m.content.data = true)
    (hdm : deathMarker m.content.data = false)
    (hst : startMarker m.content.data = false) :
    (extractGameInfo s m).pendingDeadPlayers = [] ∧
    (extractGameInfo s m).deadPlayers =
      s.pendingDeadPlayers.foldl (fun d p => if p ∈ d then d else d ++ [p])
        s.deadPlayers ∧
    (extractGameInfo s m).alivePlayers =
      s.pendingDeadPlayers.foldl (fun a p => a.erase p) s.alivePlayers := by
  have h4 : deathBlock (seerResultBlock (teammateBlock (roleBlock s m) m) m) m =
      seerResultBlock (teammateBlock (roleBlock s m) m) m := deathBlock_noop _ m hdm
  have h5 : gameStartBlock (seerResultBlock (teammateBlock (roleBlock s m) m) m) m =
      seerResultBlock (teammateBlock (roleBlock s m) m) m := gameStartBlock_noop _ m hst
  have h6 : phaseBlock (seerResultBlock (teammateBlock (roleBlock s m) m) m) m =
      commitPending { seerResultBlock (teammateBlock (roleBlock s m) m) m with
        phase := "day", speechOrder := 0 } := phaseBlock_day _ m hn hd
  have hext : extractGameInfo s m =
      accusationBlock (claimBlock (voteBlock (speechOrderBlock (phaseBlock
        (gameStartBlock (deathBlock (seerResultBlock (teammateBlock
          (roleBlock s m) m) m) m) m) m) m) m) m) m := rfl
  rw [hext, h4, h5, h6]
  obtain ⟨_, _, _, d1, p1, a1, _, _, _, _, _, _, _⟩ := roleBlock_same s m
  obtain ⟨_, _, _, d2, p2, a2, _, _, _, _, _, _, _⟩ :=
    teammateBlock_same (roleBlock s m) m
  obtain ⟨_, _, _, _, d3, p3, a3, _, _, _, _, _, _, _⟩ :=
    seerResultBlock_same (teammateBlock (roleBlock s m) m) m
  obtain ⟨_, _, _, _, _, d7, p7, a7, _, _, _, _, _, _, _⟩ :=
    speechOrderBlock_same (commitPending
      { seerResultBlock (teammateBlock (roleBlock s m) m) m with
        phase := "day", speechOrder := 0 }) m
  obtain ⟨_, _, _, _, d8, p8, a8, _, _, _, _, _, _⟩ :=
    voteBlock_same (speechOrderBlock (commitPending
      { seerResultBlock (teammateBlock (roleBlock s m) m) m with
        phase := "day", speechOrder := 0 }) m) m
  obtain ⟨_, _, _, _, _, d9, p9, a9, _, _, _, _⟩ :=
    claimBlock_same (voteBlock (speechOrderBlock (commitPending
      { seerResultBlock (teammateBlock (roleBlock s m) m) m with
        phase := "day", speechOrder := 0 }) m) m) m
  obtain ⟨_, _, _, _, _, d10, p10, a10, _, _, _, _, _, _⟩ :=
    accusationBlock_same (claimBlock (voteBlock (speechOrderBlock (commitPending
      { seerResultBlock (teammateBlock (roleBlock s m) m) m with
        phase := "day", speechOrder := 0 }) m) m) m) m
  refine ⟨?_, ?_, ?_⟩ <;>
    simp only [d10, d9, d8, d7, a10, a9, a8, a7, p10, p9, p8, p7] <;>
    show _ = _ <;>
    simp only [commitPending, d3, d2, d1, p3, p2, p1, a3, a2, a1]

/-- C1: a death-announcement message (that is not itself a day transition
or a roster announcement) stages each newly named player into
`pending_dead_players` without touching `dead_players` or
`alive_players`; a day-phase-transition message (not itself a death
announcement or roster) moves every staged identifier into
`dead_players`, removes it from `alive_players`, and empties the staging
buffer. -/
theorem claim_C1_staged_deaths (s : AgentState) (m : GameMsg) :
    (deathMarker m.content.data = true → dayMarker m.content.data = false →
     startMarker m.content.data = false →
      ((extractGameInfo s m).deadPlayers = s.deadPlayers ∧
       (extractGameInfo s m).alivePlayers = s.alivePlayers ∧
       ∀ q, q ∈ (extractGameInfo s m).pendingDeadPlayers ↔
         q ∈ s.pendingDeadPlayers ∨
           (q ∈ findPlayers m.content.data ∧ q ∉ s.deadPlayers))) ∧
    (dayMarker m.content.data = true → nightMarker m.content.data = false →
     deathMarker m.content.data = false → startMarker m.content.data = false →
     s.alivePlayers.Nodup →
      ((extractGameInfo s m).pendingDeadPlayers = [] ∧
       (∀ q, q ∈ (extractGameInfo s m).deadPlayers ↔
         q ∈ s.deadPlayers ∨ q ∈ s.pendingDeadPlayers) ∧
       (∀ q, q ∈ (extractGameInfo s m).alivePlayers ↔
         q ∈ s.alivePlayers ∧ q ∉ s.pendingDeadPlayers))) := by
  constructor
  · intro hdm hdy hst
    obtain ⟨hdead, halive, hpend, hd3, hp3⟩ := extract_dap s m hdy hst
    refine ⟨hdead, halive, fun q => ?_⟩
    rw [hpend, deathBlock_fires _ m hdm, hd3, hp3]
    exact deathFold_mem s.deadPlayers (findPlayers m.content.data)
      s.pendingDeadPlayers q
  · intro hd hn hdm hst hnd
    obtain ⟨hpend, hdead, halive⟩ := extract_day s m hn hd hdm hst
    refine ⟨hpend, fun q => ?_, fun q => ?_⟩
    · rw [hdead]
      exact commitDead_mem s.pendingDeadPlayers s.deadPlayers q
    · rw [halive]
      exact commitAlive_mem s.pendingDeadPlayers s.alivePlayers hnd q

/-- Witness for C1: `Player3`'s death is staged (not yet dead, not yet
removed from alive) and the next day transition commits it. -/
theorem claim_C1_witness :
    ((extractGameInfo (initState "Player1") msgDeath).deadPlayers = [] ∧
     "Player3" ∈ (extractGameInfo (initState "Player1") msgDeath).pendingDeadPlayers) ∧
    ((extractGameInfo c1state msgDay).pendingDeadPlayers = [] ∧
     "Player3" ∈ (extractGameInfo c1state msgDay).deadPlayers ∧
     "Player3" ∉ (extractGameInfo c1state msgDay).alivePlayers) := by
  constructor
  · obtain ⟨hdead, -, hpend⟩ :=
      (claim_C1_staged_deaths (initState "Player1") msgDeath).1
        (by decide) (by decide) (by decide)
    exact ⟨by rw [hdead]; rfl, (hpend "Player3").mpr (Or.inr ⟨by decide, by decide⟩)⟩
  · obtain ⟨hp, hd, ha⟩ :=
      (claim_C1_staged_deaths c1state msgDay).2
        (by decide) (by decide) (by decide) (by decide) (by decide)
    exact ⟨hp, (hd "Player3").mpr (Or.inr (by decide)),
      fun hc => ((ha "Player3").mp hc).2 (by decide)⟩

/-! ## Game start / roster handling (claims C7, C8) -/

/-- C7 (amended): a roster announcement repopulates `alive_players` with
exactly the identifiers enumerated in the message, but does NOT reset any
of the game-scoped belief fields (teammates, known roles, suspicions,
dead players, voting history, speech patterns, role claims) — the source
has no reset logic in the game-start block. -/
theorem claim_C7_roster_no_reset (s : AgentState) (m : GameMsg)
    (hst : startMarker m.content.data = true)
    (hfound : findPlayers m.content.data ≠ [])
    (hrm : roleMarker m.content.data = false)
    (hwm : wolfChannelMarker m.content.data = false)
    (hsm : seerMarker m.content.data = false)
    (hdm : deathMarker m.content.data = false)
    (hn : nightMarker m.content.data = false)
    (hd : dayMarker m.content.data = false)
    (hsp : isPlayerSpeaker m.speaker = false) :
    (extractGameInfo s m).alivePlayers = findPlayers m.content.data ∧
    (extractGameInfo s m).teammates = s.teammates ∧
    (extractGameInfo s m).knownRoles = s.knownRoles ∧
    (extractGameInfo s m).suspicions = s.suspicions ∧
    (extractGameInfo s m).deadPlayers = s.deadPlayers ∧
    (extractGameInfo s m).votingHistory = s.votingHistory ∧
    (extractGameInfo s m).speechPatterns = s.speechPatterns ∧
    (extractGameInfo s m).claimedRoles = s.claimedRoles := by
  have hext : extractGameInfo s m = gameStartBlock s m := by
    show accusationBlock (claimBlock (voteBlock (speechOrderBlock (phaseBlock
      (gameStartBlock (deathBlock (seerResultBlock (teammateBlock
        (roleBlock s m) m) m) m) m) m) m) m) m) m = gameStartBlock s m
    rw [roleBlock_noop s m hrm, teammateBlock_noop_marker s m hwm,
      seerResultBlock_noop_marker s m hsm, deathBlock_noop s m hdm,
      phaseBlock_noop _ m hn hd, speechOrderBlock_noop _ m hsp,
      voteBlock_noop _ m hsp, claimBlock_noop _ m hsp,
      accusationBlock_noop _ m hsp]
  rw [hext]
  obtain ⟨halive, -⟩ := gameStartBlock_roster s m hst hfound
  obtain ⟨_, _, ht, hk, hsus, hdead, _, hvh, hspp, _, hcl, _, _⟩ :=
    gameStartBlock_same s m
  exact ⟨halive, ht, hk, hsus, hdead, hvh, hspp, hcl⟩

/-- Witness for C7 (amended) at the concrete state `c7state`. -/
theorem claim_C7_witness :
    (extractGameInfo c7state msgRoster).alivePlayers =
      findPlayers msgRoster.content.data ∧
    (extractGameInfo c7state msgRoster).knownRoles = c7state.knownRoles ∧
    (extractGameInfo c7state msgRoster).suspicions = c7state.suspicions := by
  obtain ⟨h1, _, h3, h4, _⟩ := claim_C7_roster_no_reset c7state msgRoster
    (by decide) (by decide) (by decide) (by decide) (by decide) (by decide)
    (by decide) (by decide) (by decide)
  exact ⟨h1, h3, h4⟩

/-- Counterexample to C7 as stated: after the roster announcement the
game-scoped fields of `c7state` are still populated, not reset to their
empty defaults as the claim demands.  (`alive_players` is repopulated as
claimed.) -/
theorem claim_C7_counterexample :
    startMarker msgRoster.content.data = true ∧
    (extractGameInfo c7state msgRoster).alivePlayers =
      ["Player1", "Player2", "Player3", "Player4"] ∧
    (extractGameInfo c7state msgRoster).knownRoles ≠ [] ∧
    (extractGameInfo c7state msgRoster).teammates ≠ [] ∧
    (extractGameInfo c7state msgRoster).deadPlayers ≠ [] ∧
    (extractGameInfo c7state msgRoster).suspicions ≠ [] ∧
    (extractGameInfo c7state msgRoster).votingHistory ≠ [] ∧
    (extractGameInfo c7state msgRoster).speechPatterns ≠ [] ∧
    (extractGameInfo c7state msgRoster).claimedRoles ≠ [] := by
  decide

/-- C8 (amended): after a roster event that names at least one player,
`my_position` is 1 plus the index of self in the roster when self is
named; when self is absent, `my_position` keeps its previous value
(which is 0 only for a fresh agent) — the source has no `else` branch
writing 0. -/
theorem claim_C8_my_position (s : AgentState) (m : GameMsg)
    (hst : startMarker m.content.data = true)
    (hfound : findPlayers m.content.data ≠ []) :
    (s.name ∈ findPlayers m.content.data →
      (extractGameInfo s m).myPosition =
        (findPlayers m.content.data).indexOf s.name + 1) ∧
    (s.name ∉ findPlayers m.content.data →
      (extractGameInfo s m).myPosition = s.myPosition) := by
  obtain ⟨n1, _, _, _, _, _, _, _, _, _, my1, _, _⟩ := roleBlock_same s m
  obtain ⟨n2, _, _, _, _, _, _, _, _, _, my2, _, _⟩ :=
    teammateBlock_same (roleBlock s m) m
  obtain ⟨n3, _, _, _, _, _, _, _, _, _, _, my3, _, _⟩ :=
    seerResultBlock_same (teammateBlock (roleBlock s m) m) m
  obtain ⟨n4, _, _, _, _, _, _, _, _, _, _, my4, _, _⟩ :=
    deathBlock_same (seerResultBlock (teammateBlock (roleBlock s m) m) m) m
  obtain ⟨_, _, _, _, _, _, _, _, my6, _, _⟩ :=
    phaseBlock_same (gameStartBlock (deathBlock (seerResultBlock (teammateBlock
      (roleBlock s m) m) m) m) m) m
  obtain ⟨_, _, _, _, _, _, _, _, _, _, _, _, my7, _, _⟩ :=
    speechOrderBlock_same (phaseBlock (gameStartBlock (deathBlock (seerResultBlock
      (teammateBlock (roleBlock s m) m) m) m) m) m) m
  obtain ⟨_, _, _, _, _, _, _, _, _, _, my8, _, _⟩ :=
    voteBlock_same (speechOrderBlock (phaseBlock (gameStartBlock (deathBlock
      (seerResultBlock (teammateBlock (roleBlock s m) m) m) m) m) m) m) m
  obtain ⟨_, _, _, _, _, _, _, _, _, _, _, my9⟩ :=
    claimBlock_same (voteBlock (speechOrderBlock (phaseBlock (gameStartBlock
      (deathBlock (seerResultBlock (teammateBlock (roleBlock s m) m) m) m) m) m) m) m) m
  obtain ⟨_, _, _, _, _, _, _, _, _, _, _, my10, _, _⟩ :=
    accusationBlock_same (claimBlock (voteBlock (speechOrderBlock (phaseBlock
      (gameStartBlock (deathBlock (seerResultBlock (teammateBlock
        (roleBlock s m) m) m) m) m) m) m) m) m) m
  obtain ⟨-, hmy5⟩ := gameStartBlock_roster
    (deathBlock (seerResultBlock (teammateBlock (roleBlock s m) m) m) m) m hst hfound
  have hext : extractGameInfo s m =
      accusationBlock (claimBlock (voteBlock (speechOrderBlock (phaseBlock
        (gameStartBlock (deathBlock (seerResultBlock (teammateBlock
          (roleBlock s m) m) m) m) m) m) m) m) m) m := rfl
  rw [hext]
  rw [my10, my9, my8, my7, my6, hmy5, n4, n3, n2, n1, my4, my3, my2, my1]
  constructor <;> intro hmem
  · rw [if_pos hmem]
  · rw [if_neg hmem]

/-- Witness for C8: a fresh `Player1` observing the roster lands in
position 1. -/
theorem claim_C8_witness :
    (extractGameInfo (initState "Player1") msgRoster).myPosition = 1 := by
  have h := (claim_C8_my_position (initState "Player1") msgRoster
    (by decide) (by decide)).1 (by decide)
  rw [h]
  decide

/-- Counterexample to C8 as stated: a roster that does not name this agent
leaves `my_position` at its stale previous value 5, not 0 as the claim
demands. -/
theorem claim_C8_counterexample :
    startMarker msgRosterNoSelf.content.data = true ∧
    "Player1" ∉ findPlayers msgRosterNoSelf.content.data ∧
    (extractGameInfo c8state msgRosterNoSelf).myPosition = 5 ∧
    (extractGameInfo c8state msgRosterNoSelf).myPosition ≠ 0 := by
  decide

/-! ## Role immutability (claim C9) -/

/-- C9 (amended): `role` is unchanged by any observed message on which the
self-role-disclosure block does not fire; immutability after the first
set does NOT hold in general, because a later message matching the
disclosure pattern overwrites `role` (there is no write-once guard). -/
theorem claim_C9_role_stability (s : AgentState) (m : GameMsg)
    (h : roleDisclosureFires s m = false) :
    (extractGameInfo s m).role = s.role := by
  have h1 : (roleBlock s m).role = s.role := by
    unfold roleDisclosureFires at h
    unfold roleBlock
    by_cases hg : (roleMarker m.content.data &&
        containsChars s.name.data m.content.data) = true
    · rw [hg, Bool.true_and] at h
      have hnone : roleScan m.content.data = none := by
        cases hr : roleScan m.content.data with
        | none => rfl
        | some r => rw [hr] at h; simp at h
      rw [if_pos hg, hnone]
    · rw [if_neg hg]
  obtain ⟨_, r2, _, _, _, _, _, _, _, _, _, _, _⟩ :=
    teammateBlock_same (roleBlock s m) m
  obtain ⟨_, r3, _, _, _, _, _, _, _, _, _, _, _, _⟩ :=
    seerResultBlock_same (teammateBlock (roleBlock s m) m) m
  obtain ⟨_, r4, _, _, _, _, _, _, _, _, _, _, _, _⟩ :=
    deathBlock_same (seerResultBlock (teammateBlock (roleBlock s m) m) m) m
  obtain ⟨_, r5, _, _, _, _, _, _, _, _, _, _, _⟩ :=
    gameStartBlock_same (deathBlock (seerResultBlock (teammateBlock
      (roleBlock s m) m) m) m) m
  obtain ⟨_, r6, _, _, _, _, _, _, _, _, _⟩ :=
    phaseBlock_same (gameStartBlock (deathBlock (seerResultBlock (teammateBlock
      (roleBlock s m) m) m) m) m) m
  obtain ⟨_, r7, _, _, _, _, _, _, _, _, _, _, _, _, _⟩ :=
    speechOrderBlock_same (phaseBlock (gameStartBlock (deathBlock (seerResultBlock
      (teammateBlock (roleBlock s m) m) m) m) m) m) m
  obtain ⟨_, r8, _, _, _, _, _, _, _, _, _, _, _⟩ :=
    voteBlock_same (speechOrderBlock (phaseBlock (gameStartBlock (deathBlock
      (seerResultBlock (teammateBlock (roleBlock s m) m) m) m) m) m) m) m
  obtain ⟨_, r9, _, _, _, _, _, _, _, _, _, _⟩ :=
    claimBlock_same (voteBlock (speechOrderBlock (phaseBlock (gameStartBlock
      (deathBlock (seerResultBlock (teammateBlock (roleBlock s m) m) m) m) m) m) m) m) m
  obtain ⟨_, r10, _, _, _, _, _, _, _, _, _, _, _, _⟩ :=
    accusationBlock_same (claimBlock (voteBlock (speechOrderBlock (phaseBlock
      (gameStartBlock (deathBlock (seerResultBlock (teammateBlock
        (roleBlock s m) m) m) m) m) m) m) m) m) m
  have hext : extractGameInfo s m =
      accusationBlock (claimBlock (voteBlock (speechOrderBlock (phaseBlock
        (gameStartBlock (deathBlock (seerResultBlock (teammateBlock
          (roleBlock s m) m) m) m) m) m) m) m) m) m := rfl
  rw [hext, r10, r9, r8, r7, r6, r5, r4, r3, r2, h1]

/-- Witness for C9 (amended): a day-transition message does not change the
role that the disclosure message set. -/
theorem claim_C9_witness :
    (extractGameInfo (extractGameInfo (initState "Player1") msgRoleSeer) msgDay).role =
      (extractGameInfo (initState "Player1") msgRoleSeer).role :=
  claim_C9_role_stability _ msgDay (by decide)

/-- Counterexample to C9 as stated: after the moderator's disclosure sets
`role = seer`, a later player message that also matches the disclosure
pattern overwrites it to `werewolf` — `role` is not immutable after its
first set. -/
theorem claim_C9_counterexample :
    (extractGameInfo (initState "Player1") msgRoleSeer).role = some "seer" ∧
    (extractGameInfo (extractGameInfo (initState "Player1") msgRoleSeer)
      msgRoleOverwrite).role = some "werewolf" := by
  decide

/-! ## Seer check-result extraction (claim C2) -/

/-- C2: when this agent's role is seer, the check-result message
`You've checked Player2, result is: werewolf` sets
`known_roles["Player2"] = "werewolf"`, while the check message
`You've checked Player2.` — naming Player2 but carrying no `result`
marker — leaves `known_roles` unchanged (pattern miss is a silent no-op). -/
theorem claim_C2_seer_check_result (s : AgentState) (h : s.role = some "seer") :
    alGet (extractGameInfo s msgSeerResult).knownRoles "Player2" = some "werewolf" ∧
    (extractGameInfo s msgSeerRequest).knownRoles = s.knownRoles := by
  constructor
  · have h1 : roleBlock s msgSeerResult = s := roleBlock_noop s _ (by decide)
    have h2 : teammateBlock s msgSeerResult = s :=
      teammateBlock_noop_role s _ (by rw [h]; decide)
    have h3 : seerResultBlock s msgSeerResult =
        { s with knownRoles := alSet "Player2" "werewolf" s.knownRoles } := by
      unfold seerResultBlock
      rw [if_pos ⟨h, by decide⟩]
      have hk : ∀ kn, seerKnown msgSeerResult.content.data kn =
          alSet "Player2" "werewolf" kn := by
        intro kn
        unfold seerKnown
        rw [show seerResultMatch msgSeerResult.content.data =
            some ("Player2", "werewolf") from by decide]
        rw [show cnSeerMatch msgSeerResult.content.data = none from by decide]
        rw [show cnFallback msgSeerResult.content.data = none from by decide]
      rw [hk]
    have hext : (extractGameInfo s msgSeerResult).knownRoles =
        alSet "Player2" "werewolf" s.knownRoles := by
      show (accusationBlock (claimBlock (voteBlock (speechOrderBlock (phaseBlock
        (gameStartBlock (deathBlock (seerResultBlock (teammateBlock
          (roleBlock s msgSeerResult) msgSeerResult) msgSeerResult) msgSeerResult)
            msgSeerResult) msgSeerResult) msgSeerResult) msgSeerResult)
              msgSeerResult) msgSeerResult).knownRoles = _
      rw [h1, h2, h3]
      set t := ({ s with knownRoles := alSet "Player2" "werewolf" s.knownRoles } : AgentState)
      obtain ⟨_, _, _, k4, _, _, _, _, _, _, _, _, _, _⟩ :=
        deathBlock_same t msgSeerResult
      obtain ⟨_, _, _, k5, _, _, _, _, _, _, _, _, _⟩ :=
        gameStartBlock_same (deathBlock t msgSeerResult) msgSeerResult
      obtain ⟨_, _, _, k6, _, _, _, _, _, _, _⟩ :=
        phaseBlock_same (gameStartBlock (deathBlock t msgSeerResult) msgSeerResult)
          msgSeerResult
      obtain ⟨_, _, _, k7, _, _, _, _, _, _, _, _, _, _, _⟩ :=
        speechOrderBlock_same (phaseBlock (gameStartBlock (deathBlock t
          msgSeerResult) msgSeerResult) msgSeerResult) msgSeerResult
      obtain ⟨_, _, _, k8, _, _, _, _, _, _, _, _, _⟩ :=
        voteBlock_same (speechOrderBlock (phaseBlock (gameStartBlock (deathBlock t
          msgSeerResult) msgSeerResult) msgSeerResult) msgSeerResult) msgSeerResult
      obtain ⟨_, _, _, k9, _, _, _, _, _, _, _, _⟩ :=
        claimBlock_same (voteBlock (speechOrderBlock (phaseBlock (gameStartBlock
          (deathBlock t msgSeerResult) msgSeerResult) msgSeerResult) msgSeerResult)
            msgSeerResult) msgSeerResult
      obtain ⟨_, _, _, k10, _, _, _, _, _, _, _, _, _, _⟩ :=
        accusationBlock_same (claimBlock (voteBlock (speechOrderBlock (phaseBlock
          (gameStartBlock (deathBlock t msgSeerResult) msgSeerResult) msgSeerResult)
            msgSeerResult) msgSeerResult) msgSeerResult) msgSeerResult
      rw [k10, k9, k8, k7, k6, k5, k4]
    rw [hext]
    exact alGet_alSet_same s.knownRoles "Player2" "werewolf"
  · have h1 : roleBlock s msgSeerRequest = s := roleBlock_noop s _ (by decide)
    have h2 : teammateBlock s msgSeerRequest = s :=
      teammateBlock_noop_role s _ (by rw [h]; decide)
    have h3 : seerResultBlock s msgSeerRequest = s := by
      unfold seerResultBlock
      rw [if_pos ⟨h, by decide⟩]
      have hk : seerKnown msgSeerRequest.content.data s.knownRoles = s.knownRoles := by
        unfold seerKnown
        rw [show seerResultMatch msgSeerRequest.content.data = none from by decide]
        rw [show cnSeerMatch msgSeerRequest.content.data = none from by decide]
        rw [show cnFallback msgSeerRequest.content.data = none from by decide]
      rw [hk]
    have h4 : deathBlock s msgSeerRequest = s := deathBlock_noop s _ (by decide)
    have h5 : gameStartBlock s msgSeerRequest = s := gameStartBlock_noop s _ (by decide)
    have h6 : phaseBlock s msgSeerRequest = s :=
      phaseBlock_noop s _ (by decide) (by decide)
    have h7 : speechOrderBlock s msgSeerRequest = s :=
      speechOrderBlock_noop s _ (by decide)
    have h8 : voteBlock s msgSeerRequest = s := voteBlock_noop s _ (by decide)
    have h9 : claimBlock s msgSeerRequest = s := claimBlock_noop s _ (by decide)
    have h10 : accusationBlock s msgSeerRequest = s :=
      accusationBlock_noop s _ (by decide)
    have hext : extractGameInfo s msgSeerRequest = s := by
      show accusationBlock (claimBlock (voteBlock (speechOrderBlock (phaseBlock
        (gameStartBlock (deathBlock (seerResultBlock (teammateBlock
          (roleBlock s msgSeerRequest) msgSeerRequest) msgSeerRequest)
            msgSeerRequest) msgSeerRequest) msgSeerRequest) msgSeerRequest)
              msgSeerRequest) msgSeerRequest) msgSeerRequest = s
      rw [h1, h2, h3, h4, h5, h6, h7, h8, h9, h10]
    rw [hext]

/-- Witness for C2 at the concrete seer state. -/
theorem claim_C2_witness :
    alGet (extractGameInfo exSeerState msgSeerResult).knownRoles "Player2" =
      some "werewolf" ∧
    (extractGameInfo exSeerState msgSeerRequest).knownRoles =
      exSeerState.knownRoles :=
  claim_C2_seer_check_result exSeerState rfl

end Werewolf
